import Mathlib

/-!
Shallow embedding of the fantasy-basketball roster-analytics core:
the weighted z-score engine (`calculateZScores`), the trend detector
(`calculateTrends`), the streaming planner (`buildStreamingPlan`), the
trade scorer (`recommendTrades`) and the consistency heuristic
(`calculateConsistency`), translated from the TypeScript sources.

Modelling conventions:
* JavaScript numbers are modelled as `ℚ` for the raw inputs and for the
  purely rational computations, and as `ℝ` where `mathjs`'s `std`
  (a square root) enters the computation.
* String-keyed objects are modelled as association lists
  (`List (String × _)`) read with `List.lookup`; a missing key is `none`.
* `x.toFixed(d)` followed by `parseFloat` is modelled as rounding to
  `d` decimals with ties away from zero (`roundTo` / `roundTo2R`).
* Display-only artifacts (locale-formatted day labels, `generatedAt`
  timestamps, interpolated `reasoning` strings of trend records) are
  omitted: they involve real time / locale formatting and no claim
  concerns them.
-/

/-- Rounding to `d` decimals over `ℚ`: model of `parseFloat(x.toFixed(d))`
(ECMA-262 `toFixed` rounds the magnitude, ties away from zero). -/
def roundTo (d : ℕ) (x : ℚ) : ℚ :=
  if x < 0 then -((Int.floor ((-x) * 10 ^ d + 1 / 2) : ℚ) / 10 ^ d)
  else (Int.floor (x * 10 ^ d + 1 / 2) : ℚ) / 10 ^ d

/-- Rounding to 2 decimals over `ℝ`: model of `parseFloat(z.toFixed(2))`. -/
noncomputable def roundTo2R (x : ℝ) : ℝ :=
  if x < 0 then -((Int.floor ((-x) * 100 + 1 / 2) : ℝ) / 100)
  else (Int.floor (x * 100 + 1 / 2) : ℝ) / 100

/-- A raw per-player stat record (`PlayerStats` in `types/sleeper.ts`):
an optional display name plus dynamically accessed numeric fields. -/
structure StatRecord where
  player_name : Option String := none
  fields : List (String × ℚ) := []
  deriving DecidableEq

/-- Model of `Number(p[key] || 0)`: a missing field coerces to 0. -/
def StatRecord.get (p : StatRecord) (k : String) : ℚ :=
  (p.fields.lookup k).getD 0

/-- Games played, accessed like any other dynamic field. -/
def StatRecord.gp (p : StatRecord) : ℚ := p.get "gp"

/-- Model of `(pStats as any).player_name || 'Unknown Player'`
(the empty string is falsy in JavaScript). -/
def StatRecord.displayName (p : StatRecord) : String :=
  match p.player_name with
  | some n => if n = "" then "Unknown Player" else n
  | none => "Unknown Player"

/-- A league roster (`Roster` in `types/sleeper.ts`); a missing `players`
array behaves like an empty one. -/
structure Roster where
  roster_id : ℤ
  players : List String := []
  starters : List String := []
  deriving DecidableEq

/-- `ScoringSettings`: category key → signed numeric weight. -/
abbrev ScoringSettings := List (String × ℚ)

/-- `AllStats`: player id → stat record. -/
abbrev AllStats := List (String × StatRecord)

def AllStats.lookup (s : AllStats) (id : String) : Option StatRecord :=
  List.lookup id s

/-- `SETTINGS_TO_STATS_MAP` from `zScoreCalculator`. -/
def settingsToStatsMap : String → Option String := fun k =>
  if k = "pts" then some "pts"
  else if k = "reb" then some "reb"
  else if k = "ast" then some "ast"
  else if k = "st" then some "stl"
  else if k = "stl" then some "stl"
  else if k = "blk" then some "blk"
  else if k = "to" then some "to"
  else if k = "turnovers" then some "to"
  else if k = "fg3m" then some "fg3m"
  else if k = "tpm" then some "fg3m"
  else if k = "fg_pct" then some "calculated_fg"
  else if k = "ft_pct" then some "calculated_ft"
  else if k = "fg3_pct" then some "calculated_3pt"
  else if k = "ast_to" then some "ast_to"
  else none

/-- `PURE_RATIO_STATS`: already-averaged ratios, never divided by GP. -/
def pureRatioStats : List String := ["ast_to", "stl_to"]

/-- `IMPACT_STATS`: volume-weighted percentage categories. -/
def impactStats : List String := ["calculated_fg", "calculated_ft", "calculated_3pt"]

/-- `IGNORED_KEYS`. -/
def ignoredKeys : List String :=
  ["bonus_ast_15p", "bonus_pt_40p", "bonus_pt_50p", "bonus_reb_20p", "qd"]

/-- One active category: `{settingKey, statKey, weight}`. -/
structure CatInfo where
  settingKey : String
  statKey : String
  weight : ℚ
  deriving DecidableEq

/-- Step 1 of `calculateZScores`: identify active categories. -/
def activeCats (ss : ScoringSettings) : List CatInfo :=
  ((ss.filter fun kv => decide (kv.2 ≠ 0 ∧ kv.1 ∉ ignoredKeys)).map
    (fun kv => { settingKey := kv.1,
                 statKey := (settingsToStatsMap kv.1).getD kv.1,
                 weight := kv.2 })).filter fun c => decide (c.statKey ≠ "")

/-- Helper `getSplitStats`: made/attempted components for a % stat. -/
def getSplitStats (p : StatRecord) (t : String) : ℚ × ℚ :=
  if t = "fg" then (p.get "fgm", p.get "fga")
  else if t = "ft" then (p.get "ftm", p.get "fta")
  else if t = "3pt" then (p.get "fg3m", p.get "fg3a")
  else (0, 0)

/-- The `type` ternary used for impact stats:
`statKey === 'calculated_fg' ? 'fg' : statKey === 'calculated_ft' ? 'ft' : '3pt'`. -/
def impactType (statKey : String) : String :=
  if statKey = "calculated_fg" then "fg"
  else if statKey = "calculated_ft" then "ft"
  else "3pt"

/-- Step 2 of `calculateZScores`: concatenate every roster's player list. -/
def populationIds (leagueRosters : List Roster) : List String :=
  leagueRosters.foldl (fun acc r => acc ++ r.players) []

/-- Step 3 of `calculateZScores`: extract the stat records that exist and
have `gp > 0`. -/
def populationStats (ids : List String) (allStats : AllStats) : List StatRecord :=
  (ids.filterMap fun id => allStats.lookup id).filter fun s => decide (0 < s.gp)

/-- `mathjs` `mean`: arithmetic mean. -/
def meanQ (l : List ℚ) : ℚ := l.sum / l.length

/-- `mathjs` `std` uses the default `unbiased` normalization: the sum of
squared deviations is divided by `n − 1`. This is that variance. -/
def sampleVar (l : List ℚ) : ℚ :=
  (l.map fun x => (x - meanQ l) ^ 2).sum / ((l.length : ℚ) - 1)

/-- `mathjs` `std`: square root of the unbiased sample variance. -/
noncomputable def stdR (l : List ℚ) : ℝ := Real.sqrt ((sampleVar l : ℚ) : ℝ)

/-- One entry of `leagueMath`: `{avg, std, avgPct}`. -/
structure Baseline where
  avg : ℚ
  std : ℝ
  avgPct : ℚ

/-- League-wide make rate for an impact stat:
`totalA > 0 ? totalM / totalA : 0`. -/
def leagueAvgPct (pop : List StatRecord) (t : String) : ℚ :=
  let totalM := (pop.map fun p => (getSplitStats p t).1).sum
  let totalA := (pop.map fun p => (getSplitStats p t).2).sum
  if 0 < totalA then totalM / totalA else 0

/-- The per-player value list a category's baseline is computed over
(branch A for impact stats, branch B for standard stats). -/
def catValues (pop : List StatRecord) (cat : CatInfo) : List ℚ :=
  if cat.statKey ∈ impactStats then
    let t := impactType cat.statKey
    pop.map fun p =>
      (getSplitStats p t).1 / p.gp - ((getSplitStats p t).2 / p.gp) * leagueAvgPct pop t
  else
    pop.map fun p =>
      if cat.statKey ∈ pureRatioStats then p.get cat.statKey
      else p.get cat.statKey / p.gp

/-- Step 4 of `calculateZScores` for one category: mean, std floored to 1
when it is 0, and the league average percentage (0 for non-impact stats,
matching the initial value of the `leagueAvgPct` local). -/
noncomputable def catBaseline (pop : List StatRecord) (cat : CatInfo) : Baseline :=
  let values := catValues pop cat
  let stdDev := stdR values
  { avg := meanQ values
  , std := if stdDev = 0 then 1 else stdDev
  , avgPct := if cat.statKey ∈ impactStats then leagueAvgPct pop (impactType cat.statKey) else 0 }

/-- The `leagueMath` table, keyed by settings key. -/
noncomputable def leagueMath (pop : List StatRecord) (cats : List CatInfo) :
    List (String × Baseline) :=
  cats.map fun c => (c.settingKey, catBaseline pop c)

/-- Step 5, value recomputation for one player and category; impact stats
reuse `math.avgPct` (the baseline's already-computed league rate). -/
def playerCatVal (math : Baseline) (cat : CatInfo) (p : StatRecord) : ℚ :=
  if cat.statKey ∈ impactStats then
    let t := impactType cat.statKey
    (getSplitStats p t).1 / p.gp - ((getSplitStats p t).2 / p.gp) * math.avgPct
  else if cat.statKey ∈ pureRatioStats then p.get cat.statKey
  else p.get cat.statKey / p.gp

/-- Raw z-score, sign flip for negative weights, then magnitude scaling:
`z = (val − avg) / std`; `if (weight < 0) z = z * -1`; `z = z * |weight|`. -/
noncomputable def playerCatZ (math : Baseline) (cat : CatInfo) (p : StatRecord) : ℝ :=
  let z : ℝ := (((playerCatVal math cat p : ℚ) : ℝ) - ((math.avg : ℚ) : ℝ)) / math.std
  let z := if cat.weight < 0 then z * (-1) else z
  z * |((cat.weight : ℚ) : ℝ)|

/-- `PlayerZScore` as produced by the engine: per-category rounded scores
and the once-rounded total. -/
structure PlayerZScore where
  name : String
  scores : List (String × ℝ)
  totalZ : ℝ

/-- The per-player loop body: fold over the active categories, storing the
rounded z per category and accumulating the unrounded z; the total is
rounded once at the end. -/
noncomputable def playerEntry (cats : List CatInfo) (lm : List (String × Baseline))
    (p : StatRecord) : PlayerZScore :=
  let acc := cats.foldl
    (fun (acc : List (String × ℝ) × ℝ) cat =>
      let math := (lm.lookup cat.settingKey).getD ⟨0, 1, 0⟩
      let z := playerCatZ math cat p
      (acc.1 ++ [(cat.settingKey, roundTo2R z)], acc.2 + z))
    ([], 0)
  { name := p.displayName, scores := acc.1, totalZ := roundTo2R acc.2 }

/-- `calculateZScores` from `zScoreCalculator`: the result map is modelled
as an association list in insertion order (`if (!pStats || !pStats.gp)
return` skips records with no entry or `gp = 0`). -/
noncomputable def calculateZScores (leagueRosters : List Roster) (allStats : AllStats)
    (scoringSettings : ScoringSettings) : List (String × PlayerZScore) :=
  let cats := activeCats scoringSettings
  if cats.length = 0 then [] else
  let ids := populationIds leagueRosters
  let pop := populationStats ids allStats
  if pop.length = 0 then [] else
  let lm := leagueMath pop cats
  ids.filterMap fun id =>
    match allStats.lookup id with
    | none => none
    | some p => if p.gp = 0 then none else some (id, playerEntry cats lm p)

/-! ### Trend detection (`trendAnalysis.ts`) -/

/-- A z-score map entry as consumed by the downstream components
(`PlayerZScore` of `types/sleeper.ts`, numbers modelled as `ℚ`). -/
structure ZScoreEntry where
  name : String := ""
  scores : List (String × ℚ) := []
  totalZ : ℚ := 0
  deriving DecidableEq

/-- A z-score map (`PlayerZScores`) as consumed downstream. -/
abbrev ZScoreMap := List (String × ZScoreEntry)

def ZScoreMap.lookup (m : ZScoreMap) (id : String) : Option ZScoreEntry :=
  List.lookup id m

inductive TrendStatus where
  | BUY_LOW | SELL_HIGH | NEUTRAL | BREAKOUT | DECLINE
  deriving DecidableEq

/-- A `PlayerTrend` record (the interpolated `reasoning` string is
presentation-only and omitted). -/
structure PlayerTrend where
  playerId : String
  playerName : String
  status : TrendStatus
  seasonZ : ℚ
  recentZ : ℚ
  zDifference : ℚ
  confidenceScore : ℚ
  deriving DecidableEq

structure TrendAnalysis where
  trends : List PlayerTrend
  buyLowCandidates : List PlayerTrend
  sellHighCandidates : List PlayerTrend
  breakouts : List PlayerTrend
  declines : List PlayerTrend

/-- The trend-status decision chain of `calculateTrends`, in source order
(first matching rule wins). -/
def trendStatusOf (seasonTotalZ recentTotalZ : ℚ) : TrendStatus :=
  let zDifference := recentTotalZ - seasonTotalZ
  if seasonTotalZ > 1/2 ∧ zDifference < -(3/2) then .BUY_LOW
  else if seasonTotalZ < -(1/2) ∧ zDifference > 3/2 then .SELL_HIGH
  else if recentTotalZ > seasonTotalZ + 1 ∧ seasonTotalZ < 1/2 then .BREAKOUT
  else if recentTotalZ < seasonTotalZ - 1 ∧ seasonTotalZ > 1/2 then .DECLINE
  else .NEUTRAL

/-- The record pushed for one player present in both maps. -/
def trendRecord (playerId : String) (seasonZ recentZ : ZScoreEntry)
    (seasonStats recentStats : AllStats) : PlayerTrend :=
  let seasonTotalZ := seasonZ.totalZ
  let recentTotalZ := recentZ.totalZ
  let zDifference := recentTotalZ - seasonTotalZ
  let recentGP := ((recentStats.lookup playerId).map (·.gp)).getD 0
  let seasonGP := ((seasonStats.lookup playerId).map (·.gp)).getD 0
  let recentConfidence := min 100 (recentGP / max seasonGP 1 * 100)
  let magnitudeConfidence := min 100 (|zDifference| * 10)
  let confidenceScore := recentConfidence * (6/10) + magnitudeConfidence * (4/10)
  { playerId := playerId
  , playerName := seasonZ.name
  , status := trendStatusOf seasonTotalZ recentTotalZ
  , seasonZ := roundTo 2 seasonTotalZ
  , recentZ := roundTo 2 recentTotalZ
  , zDifference := roundTo 2 zDifference
  , confidenceScore := roundTo 1 confidenceScore }

/-- `calculateTrends`: iterate the season map in key order; players
missing from the recent map are skipped (`if (!seasonZ || !recentZ)
return`); then build the filtered, sorted sublists. -/
def calculateTrends (seasonZScores recentZScores : ZScoreMap)
    (seasonStats recentStats : AllStats) : TrendAnalysis :=
  let trends := seasonZScores.filterMap fun kv =>
    match recentZScores.lookup kv.1 with
    | none => none
    | some rz => some (trendRecord kv.1 kv.2 rz seasonStats recentStats)
  { trends := trends
  , buyLowCandidates :=
      (trends.filter fun t => decide (t.status = .BUY_LOW)).mergeSort
        fun a b => decide (b.confidenceScore ≤ a.confidenceScore)
  , sellHighCandidates :=
      (trends.filter fun t => decide (t.status = .SELL_HIGH)).mergeSort
        fun a b => decide (b.confidenceScore ≤ a.confidenceScore)
  , breakouts :=
      (trends.filter fun t => decide (t.status = .BREAKOUT)).mergeSort
        fun a b => decide (b.recentZ ≤ a.recentZ)
  , declines :=
      (trends.filter fun t => decide (t.status = .DECLINE)).mergeSort
        fun a b => decide (a.recentZ ≤ b.recentZ) }

/-! ### Streaming planner (`streamingLogic.ts`) -/

structure NBAGameSummary where
  gameId : String := ""
  date : String := ""
  tipoffUTC : String := ""
  homeTeam : String := ""
  awayTeam : String := ""
  deriving DecidableEq

structure DailySchedule where
  date : String
  isoDate : String := ""
  games : List NBAGameSummary := []
  teamsPlaying : List String
  deriving DecidableEq

/-- Player metadata from the cached players map; missing string fields are
`none` (JavaScript `undefined`). -/
structure PlayerMeta where
  fantasy_positions : List String := []
  position : Option String := none
  full_name : Option String := none
  first_name : Option String := none
  last_name : Option String := none
  search_full_name : Option String := none
  team : Option String := none
  deriving DecidableEq

structure PlayerStreamingInfo where
  playerId : String
  name : String
  team : String
  positions : List String
  isStarter : Bool
  zScore : ℚ
  upcomingGames : List NBAGameSummary
  deriving DecidableEq

/-- `StreamCandidate extends PlayerStreamingInfo` with a reason string. -/
structure StreamCandidate extends PlayerStreamingInfo where
  reason : String
  deriving DecidableEq

/-- `StreamingDayPlan` (the locale-formatted `dayLabel` is omitted). -/
structure StreamingDayPlan where
  date : String
  nbaGames : ℕ
  teamsPlaying : List String
  activeSlots : ℕ
  playersAvailable : ℕ
  holes : ℤ
  ownPlayers : List PlayerStreamingInfo
  recommendations : List StreamCandidate

structure MatchupEntry where
  roster_id : ℤ
  starters : List String := []
  deriving DecidableEq

structure StreamingInput where
  roster : Option Roster := none
  allRosters : List Roster := []
  rosterPositions : List String := []
  playerZScores : ZScoreMap := []
  playersMap : List (String × PlayerMeta) := []
  dailySchedule : List DailySchedule := []
  teamGameMap : List (String × List NBAGameSummary) := []
  matchups : Option (List MatchupEntry) := none
  leagueId : Option String := none

structure StreamingPlan where
  rosterId : Option ℤ
  leagueId : Option String
  activeSlots : ℕ
  benchSlots : ℕ
  totalRosterPlayers : ℕ
  days : List StreamingDayPlan

/-- ASCII uppercase, modelling `slot.toUpperCase()` on slot codes. -/
def strUpper (s : String) : String := ⟨s.data.map Char.toUpper⟩

def benchCodes : List String := ["BN", "IR", "IR+", "NA"]

/-- `getActiveSlotCount`: non-empty slots whose upper-cased code is not a
bench code. -/
def getActiveSlotCount (rosterPositions : List String) : ℕ :=
  (rosterPositions.filter fun slot =>
    decide (slot ≠ "" ∧ strUpper slot ∉ benchCodes)).length

/-- `getBenchSlotCount`. -/
def getBenchSlotCount (rosterPositions : List String) : ℕ :=
  (rosterPositions.filter fun slot => decide (strUpper slot ∈ benchCodes)).length

/-- `buildStarterSet`; the starter set is modelled as a list used only for
membership. `!rosterId` is falsy for a missing roster id and for id 0. -/
def buildStarterSet (matchups : Option (List MatchupEntry)) (rosterId : Option ℤ)
    (fallbackStarters : List String) : List String :=
  match matchups, rosterId with
  | none, _ => fallbackStarters
  | some _, none => fallbackStarters
  | some ms, some rid =>
    if rid = 0 then fallbackStarters
    else
      match ms.find? fun m => decide (m.roster_id = rid) with
      | some entry =>
        if entry.starters.length ≠ 0 then entry.starters.filter (fun s => decide (s ≠ ""))
        else fallbackStarters
      | none => fallbackStarters

/-- `buildRosteredSet`: the union of all rosters' players (modelled as a
list used only for membership). -/
def buildRosteredSet (allRosters : List Roster) : List String :=
  allRosters.foldl (fun acc t => acc ++ t.players) []

/-- Resolved name / positions / team for `getPlayerMeta`, with the
documented fallback chains (empty strings are falsy in JavaScript). -/
structure ResolvedMeta where
  name : String
  positions : List String
  team : String
  deriving DecidableEq

def getPlayerMeta (playerId : String) (playersMap : List (String × PlayerMeta)) :
    ResolvedMeta :=
  let meta := (playersMap.lookup playerId).getD {}
  let positions :=
    if meta.fantasy_positions.length ≠ 0 then meta.fantasy_positions
    else match meta.position with
      | some pos => if pos = "" then [] else [pos]
      | none => []
  let name :=
    match meta.full_name with
    | some n => if n ≠ "" then n else getPlayerMetaNameFallback playerId meta
    | none => getPlayerMetaNameFallback playerId meta
  { name := name, positions := positions, team := meta.team.getD "" }
where
  /-- `first_name && last_name ? first+last : search_full_name ? it : playerId`. -/
  getPlayerMetaNameFallback (playerId : String) (meta : PlayerMeta) : String :=
    match meta.first_name, meta.last_name with
    | some f, some l =>
      if f ≠ "" ∧ l ≠ "" then f ++ " " ++ l
      else match meta.search_full_name with
        | some s => if s ≠ "" then s else playerId
        | none => playerId
    | _, _ =>
      match meta.search_full_name with
      | some s => if s ≠ "" then s else playerId
      | none => playerId

/-- JavaScript string `>=`, lexicographic on code points. -/
def strGe (a b : String) : Bool := decide (¬ a < b)

/-- `collectFreeAgents`: z-score entries not rostered, with a resolved
team, sorted descending by total Z and capped at 200. -/
def collectFreeAgents (playerZScores : ZScoreMap)
    (playersMap : List (String × PlayerMeta)) (rosteredSet : List String) :
    List StreamCandidate :=
  let agents := playerZScores.filterMap fun kv =>
    if kv.1 ∈ rosteredSet then none
    else
      let meta := getPlayerMeta kv.1 playersMap
      if meta.team = "" then none
      else some
        { playerId := kv.1
        , name := meta.name
        , positions := meta.positions
        , team := meta.team
        , isStarter := false
        , zScore := kv.2.totalZ
        , upcomingGames := []
        , reason := "Top free agent by z-score" }
  (agents.mergeSort fun a b => decide (b.zScore ≤ a.zScore)).take 200

/-- `enrichWithUpcomingGames` for roster players (limit 2). -/
def enrichWithUpcomingGames (entries : List PlayerStreamingInfo)
    (teamGameMap : List (String × List NBAGameSummary)) (referenceDate : String)
    (limit : ℕ) : List PlayerStreamingInfo :=
  entries.map fun entry =>
    { entry with upcomingGames :=
        (((teamGameMap.lookup entry.team).getD []).filter fun g =>
          strGe g.date referenceDate).take limit }

/-- `enrichWithUpcomingGames` applied to stream candidates (limit 3). -/
def enrichCandidates (entries : List StreamCandidate)
    (teamGameMap : List (String × List NBAGameSummary)) (referenceDate : String)
    (limit : ℕ) : List StreamCandidate :=
  entries.map fun entry =>
    { entry with upcomingGames :=
        (((teamGameMap.lookup entry.team).getD []).filter fun g =>
          strGe g.date referenceDate).take limit }

/-- The target roster's players with meta and z-scores resolved. -/
def rosterPlayersOf (input : StreamingInput) : List PlayerStreamingInfo :=
  let starters := buildStarterSet input.matchups (input.roster.map (·.roster_id))
    ((input.roster.map (·.starters)).getD [])
  ((input.roster.map (·.players)).getD []).map fun playerId =>
    let meta := getPlayerMeta playerId input.playersMap
    { playerId := playerId
    , name := meta.name
    , team := meta.team
    , positions := meta.positions
    , isStarter := decide (playerId ∈ starters)
    , zScore := ((input.playerZScores.lookup playerId).map (·.totalZ)).getD 0
    , upcomingGames := [] }

/-- The plan for one schedule day. -/
def streamingDayPlan (activeSlots : ℕ) (rosterPlayers : List PlayerStreamingInfo)
    (freeAgents : List StreamCandidate)
    (teamGameMap : List (String × List NBAGameSummary)) (day : DailySchedule) :
    StreamingDayPlan :=
  let playersAvailable := rosterPlayers.filter fun player =>
    decide (player.team ≠ "" ∧ player.team ∈ day.teamsPlaying)
  let holes : ℤ := max 0 ((activeSlots : ℤ) - playersAvailable.length)
  let enrichedOwnPlayers := enrichWithUpcomingGames playersAvailable teamGameMap day.date 2
  let recommendations :=
    if 0 < holes then
      let faOptions := freeAgents.filter fun agent =>
        decide (agent.team ≠ "" ∧ agent.team ∈ day.teamsPlaying)
      let enriched := (enrichCandidates faOptions teamGameMap day.date 3).map fun entry =>
        { entry with reason :=
            "Plays on " ++ day.date ++ " and ranks among top available z-scores" }
      enriched.take (min (holes * 2) 5).toNat
    else []
  { date := day.date
  , nbaGames := day.games.length
  , teamsPlaying := day.teamsPlaying
  , activeSlots := activeSlots
  , playersAvailable := playersAvailable.length
  , holes := holes
  , ownPlayers := enrichedOwnPlayers.mergeSort fun a b =>
      if a.isStarter = b.isStarter then decide (b.zScore ≤ a.zScore) else a.isStarter
  , recommendations := recommendations }

/-- `buildStreamingPlan`. -/
def buildStreamingPlan (input : StreamingInput) : StreamingPlan :=
  let activeSlots := getActiveSlotCount input.rosterPositions
  let benchSlots := getBenchSlotCount input.rosterPositions
  let rosteredSet := buildRosteredSet input.allRosters
  let freeAgents := collectFreeAgents input.playerZScores input.playersMap rosteredSet
  let rosterPlayers := rosterPlayersOf input
  { rosterId := input.roster.map (·.roster_id)
  , leagueId := input.leagueId
  , activeSlots := activeSlots
  , benchSlots := benchSlots
  , totalRosterPlayers := ((input.roster.map (·.players)).getD []).length
  , days := input.dailySchedule.map fun day =>
      streamingDayPlan activeSlots rosterPlayers freeAgents input.teamGameMap day }

/-! ### Trade scorer (`tradeRecommender.ts`) -/

/-- A `TradeRecommendation` (the redundant `rosters` back-reference field,
which just stores the input list, is omitted). -/
structure TradeRecommendation where
  playerId : String
  playerName : String
  rosterIndex : ℕ
  ownerName : String
  needCategoryZ : ℚ
  spareCategoryZ : ℚ
  tradeScore : ℚ
  deriving DecidableEq

/-- The `recommendations` array built by `recommendTrades` before its
final sort: one entry per player on every other roster with a known
z-score entry, in roster-walk order. -/
def tradeCandidates (myRosterId : ℤ) (leagueRosters : List Roster)
    (playerZScores : ZScoreMap) (needCategory spareCategory : String)
    (ownerDisplayNames : List (String × String)) : List TradeRecommendation :=
  leagueRosters.enum.flatMap fun ri =>
    if ri.2.roster_id = myRosterId then []
    else ri.2.players.filterMap fun playerId =>
      match playerZScores.lookup playerId with
      | none => none
      | some playerData =>
        let needCategoryZ := (playerData.scores.lookup needCategory).getD 0
        let spareCategoryZ := (playerData.scores.lookup spareCategory).getD 0
        some
          { playerId := playerId
          , playerName := playerData.name
          , rosterIndex := ri.1
          , ownerName := ((ownerDisplayNames.lookup (toString ri.2.roster_id)).getD
              ("Team " ++ toString ri.2.roster_id))
          , needCategoryZ := needCategoryZ
          , spareCategoryZ := spareCategoryZ
          , tradeScore := needCategoryZ - spareCategoryZ }

/-- `recommendTrades`: the candidates list sorted descending by trade
score (empty when the requesting roster is not found). -/
def recommendTrades (myRosterId : ℤ) (leagueRosters : List Roster)
    (playerZScores : ZScoreMap) (needCategory spareCategory : String)
    (ownerDisplayNames : List (String × String)) : List TradeRecommendation :=
  match leagueRosters.find? fun r => decide (r.roster_id = myRosterId) with
  | none => []
  | some _ =>
    (tradeCandidates myRosterId leagueRosters playerZScores needCategory spareCategory
      ownerDisplayNames).mergeSort fun a b => decide (b.tradeScore ≤ a.tradeScore)

/-! ### Consistency estimator (`consistency.ts`) -/

structure ConsistencyMetrics where
  mean : ℚ
  std : ℚ
  cv : ℚ
  riskLevel : String
  deriving DecidableEq

/-- The estimated coefficient of variation for a record with nonzero games
played: usage-bucket base plus the stat-variance perturbation. -/
def estimatedCV (ps : StatRecord) : ℚ :=
  let gp := ps.gp
  let ppg := ps.get "pts" / gp
  let rpg := ps.get "reb" / gp
  let apg := ps.get "ast" / gp
  let usageScore := ppg + rpg * (1/2) + apg * (7/10)
  let base : ℚ :=
    if usageScore > 20 then 3/20
    else if usageScore > 12 then 11/50
    else if usageScore > 6 then 7/20
    else 1/2
  let statVariance := |ppg - rpg - apg| / max usageScore 1
  base + statVariance * (1/20)

/-- `calculateConsistency`: `!playerStats || !playerStats.gp ||
playerStats.gp === 0` short-circuits to the N/A record. -/
def calculateConsistency (playerStats : Option StatRecord) : ConsistencyMetrics :=
  match playerStats with
  | none => { mean := 0, std := 0, cv := 0, riskLevel := "N/A" }
  | some ps =>
    if ps.gp = 0 then { mean := 0, std := 0, cv := 0, riskLevel := "N/A" }
    else
      let cv := estimatedCV ps
      let riskLevel := if cv > 2/5 then "High" else if cv > 1/4 then "Medium" else "Low"
      { mean := roundTo 2 (ps.get "pts" / ps.gp)
      , std := roundTo 2 cv
      , cv := roundTo 3 cv
      , riskLevel := riskLevel }

/-! ### Spec-side definitions (for refinement-style claims) -/

/-- Modelled from the spec: the trend classification "first matching rule
wins" list of §4.5 (BUY_LOW, SELL_HIGH, BREAKOUT, DECLINE, else NEUTRAL),
written from the spec's words to compare against the code's chain. -/
def trendStatusSpec (seasonTotalZ recentTotalZ : ℚ) : TrendStatus :=
  let zDifference := recentTotalZ - seasonTotalZ
  if seasonTotalZ > 1/2 ∧ zDifference < -(3/2) then .BUY_LOW
  else if seasonTotalZ < -(1/2) ∧ zDifference > 3/2 then .SELL_HIGH
  else if recentTotalZ > seasonTotalZ + 1 ∧ seasonTotalZ < 1/2 then .BREAKOUT
  else if recentTotalZ < seasonTotalZ - 1 ∧ seasonTotalZ > 1/2 then .DECLINE
  else .NEUTRAL

/-- Modelled from the spec: the population standard deviation (squared
deviations divided by `n`, not `n − 1`) that claim C4 asserts the baseline
uses. -/
noncomputable def popStdDev (l : List ℚ) : ℝ :=
  Real.sqrt ((((l.map fun x => (x - meanQ l) ^ 2).sum / l.length : ℚ) : ℝ))

/-- Modelled from the amended claim C4: the unbiased sample standard
deviation (squared deviations divided by `n − 1`, then a square root) that
the code's baseline actually uses. -/
noncomputable def sampleStdDev (l : List ℚ) : ℝ :=
  Real.sqrt ((((l.map fun x => (x - l.sum / l.length) ^ 2).sum / ((l.length : ℚ) - 1) : ℚ) : ℝ))

/-- Modelled from the spec: the duplicate-free union of roster player-id
lists (set semantics) that claim C5 asserts the population is built from. -/
def dedupPopulationIds (leagueRosters : List Roster) : List String :=
  (populationIds leagueRosters).eraseDups

/-! ### Concrete example leagues -/

/-- League A: one roster, five players, a single negative-weight turnover
category. Per-game turnover values are `[1, 3, 3, 1, 2]`, so the baseline
mean is 2 and the (unbiased, `n − 1`) standard deviation is 1. -/
def leagueAsettings : ScoringSettings := [("to", -1)]

def leagueArosters : List Roster := [{ roster_id := 1, players := ["A", "B", "C", "D", "E"] }]

def leagueAstats : AllStats :=
  [ ("A", { fields := [("gp", 1), ("to", 1)] })
  , ("B", { fields := [("gp", 1), ("to", 3)] })
  , ("C", { fields := [("gp", 1), ("to", 3)] })
  , ("D", { fields := [("gp", 1), ("to", 1)] })
  , ("E", { fields := [("gp", 1), ("to", 2)] }) ]

/-- The single active category of league A. -/
def catTo : CatInfo := { settingKey := "to", statKey := "to", weight := -1 }

/-- League B: two weight-1 categories (points and rebounds), five players
with 8 games each. Per-game values are `[25/8, 3/8, 17/8, 17/8, 18/8]` in
both categories: mean 2, unbiased std 1, so player P's unrounded
per-category z is 1.125, stored as 1.13, while the total 2.25 is rounded
once to 2.25 ≠ 1.13 + 1.13. -/
def leagueBsettings : ScoringSettings := [("pts", 1), ("reb", 1)]

def leagueBrosters : List Roster :=
  [{ roster_id := 1, players := ["P", "Q", "R", "S", "T"] }]

def leagueBstats : AllStats :=
  [ ("P", { fields := [("gp", 8), ("pts", 25), ("reb", 25)] })
  , ("Q", { fields := [("gp", 8), ("pts", 3), ("reb", 3)] })
  , ("R", { fields := [("gp", 8), ("pts", 17), ("reb", 17)] })
  , ("S", { fields := [("gp", 8), ("pts", 17), ("reb", 17)] })
  , ("T", { fields := [("gp", 8), ("pts", 18), ("reb", 18)] }) ]

/-- The rebounds category of league B. -/
def catRebB : CatInfo := { settingKey := "reb", statKey := "reb", weight := 1 }

/-- League C: a single field-goal-percentage (Impact) category, two
players; total makes 4, total attempts 6, league rate 2/3. -/
def leagueCsettings : ScoringSettings := [("fg_pct", 1)]

def leagueCrosters : List Roster := [{ roster_id := 1, players := ["A", "B"] }]

def leagueCstats : AllStats :=
  [ ("A", { fields := [("gp", 1), ("fgm", 1), ("fga", 2)] })
  , ("B", { fields := [("gp", 1), ("fgm", 3), ("fga", 4)] }) ]

/-- The single active category of league C. -/
def catFgPct : CatInfo := { settingKey := "fg_pct", statKey := "calculated_fg", weight := 1 }

/-- League D: one points category, two players with per-game values 1 and
3: the unbiased standard deviation is √2 while the population standard
deviation is 1. -/
def leagueDsettings : ScoringSettings := [("pts", 1)]

def leagueDrosters : List Roster := [{ roster_id := 1, players := ["A", "B"] }]

def leagueDstats : AllStats :=
  [ ("A", { fields := [("gp", 1), ("pts", 1)] })
  , ("B", { fields := [("gp", 1), ("pts", 3)] }) ]

/-- The single active category of leagues B/D/E that reads points. -/
def catPts : CatInfo := { settingKey := "pts", statKey := "pts", weight := 1 }

/-- League E: player A appears on both rosters, so the concatenated
population carries A's record twice; per-game point values are
`[3, 3, 0]` (mean 2) while the duplicate-free population would give
`[3, 0]` (mean 3/2). -/
def leagueEsettings : ScoringSettings := [("pts", 1)]

def leagueErosters : List Roster :=
  [ { roster_id := 1, players := ["A"] }
  , { roster_id := 2, players := ["A", "B"] } ]

def leagueEstats : AllStats :=
  [ ("A", { fields := [("gp", 1), ("pts", 3)] })
  , ("B", { fields := [("gp", 1), ("pts", 0)] }) ]

/-- The stat records of league A's population, in concatenation order. -/
def popA : List StatRecord :=
  [ { fields := [("gp", 1), ("to", 1)] }
  , { fields := [("gp", 1), ("to", 3)] }
  , { fields := [("gp", 1), ("to", 3)] }
  , { fields := [("gp", 1), ("to", 1)] }
  , { fields := [("gp", 1), ("to", 2)] } ]

/-- The stat records of league B's population. -/
def popB : List StatRecord :=
  [ { fields := [("gp", 8), ("pts", 25), ("reb", 25)] }
  , { fields := [("gp", 8), ("pts", 3), ("reb", 3)] }
  , { fields := [("gp", 8), ("pts", 17), ("reb", 17)] }
  , { fields := [("gp", 8), ("pts", 17), ("reb", 17)] }
  , { fields := [("gp", 8), ("pts", 18), ("reb", 18)] } ]

/-- The stat records of league C's population. -/
def popC : List StatRecord :=
  [ { fields := [("gp", 1), ("fgm", 1), ("fga", 2)] }
  , { fields := [("gp", 1), ("fgm", 3), ("fga", 4)] } ]

/-- The stat records of league D's population. -/
def popD : List StatRecord :=
  [ { fields := [("gp", 1), ("pts", 1)] }
  , { fields := [("gp", 1), ("pts", 3)] } ]

/-- The stat records of league E's population: player A's record appears
twice because A is on both rosters. -/
def popE : List StatRecord :=
  [ { fields := [("gp", 1), ("pts", 3)] }
  , { fields := [("gp", 1), ("pts", 3)] }
  , { fields := [("gp", 1), ("pts", 0)] } ]

/-- The two-roster league used to witness the trade-scorer claims. -/
def tradeRosters : List Roster :=
  [ { roster_id := 1, players := ["M"] }
  , { roster_id := 2, players := ["X"] } ]

/-- The z-score map of the trade-scorer witness league. -/
def tradeZMap : ZScoreMap :=
  [("X", { name := "X", scores := [("ast", 2), ("blk", 1)], totalZ := 3 })]

/-- The schedule day of the streaming witness: only LAL plays. -/
def streamDay : DailySchedule := { date := "2026-01-01", teamsPlaying := ["LAL"] }

/-- The streaming witness input: one active slot, the roster's only player
is on BOS (not playing), and one free agent plays for LAL. -/
def streamInput : StreamingInput :=
  { roster := some { roster_id := 5, players := ["p1"] }
  , allRosters := [{ roster_id := 5, players := ["p1"] }]
  , rosterPositions := ["PG", "BN"]
  , playerZScores := [("p1", { totalZ := 1 }), ("fa1", { totalZ := 2 })]
  , playersMap := [("p1", { team := some "BOS" }), ("fa1", { team := some "LAL" })]
  , dailySchedule := [streamDay]
  , teamGameMap := [] }

/-! ### Infrastructure lemmas -/

theorem foldl_append_players (leagueRosters : List Roster) (acc : List String) :
    leagueRosters.foldl (fun a r => a ++ r.players) acc
      = acc ++ leagueRosters.flatMap (·.players) := by
  induction leagueRosters generalizing acc with
  | nil => simp
  | cons r rest ih => simp [ih, List.append_assoc]

theorem populationIds_eq_flatMap (leagueRosters : List Roster) :
    populationIds leagueRosters = leagueRosters.flatMap (·.players) := by
  simpa using foldl_append_players leagueRosters []

theorem populationIds_count (leagueRosters : List Roster) (id : String) :
    (populationIds leagueRosters).count id
      = (leagueRosters.map fun r => r.players.count id).sum := by
  rw [populationIds_eq_flatMap]
  induction leagueRosters with
  | nil => simp
  | cons r rest ih => simp [List.count_append, ih]

theorem keys_sublist_aux (p : String × ℚ → Bool) (q : CatInfo → Bool)
    (mk : String × ℚ → CatInfo) (hmk : ∀ kv, (mk kv).settingKey = kv.1)
    (ss : ScoringSettings) :
    ((((ss.filter p).map mk).filter q).map (·.settingKey)).Sublist (ss.map Prod.fst) := by
  have h1 : ((((ss.filter p).map mk).filter q).map (·.settingKey)).Sublist
      (((ss.filter p).map mk).map (·.settingKey)) :=
    List.Sublist.map _ (List.filter_sublist _)
  refine h1.trans ?_
  rw [List.map_map]
  have h2 : (ss.filter p).map ((·.settingKey) ∘ mk) = (ss.filter p).map Prod.fst := by
    exact List.map_congr_left fun kv _ => hmk kv
  rw [h2]
  exact List.Sublist.map _ (List.filter_sublist _)

theorem activeCats_keys_sublist (ss : ScoringSettings) :
    ((activeCats ss).map (·.settingKey)).Sublist (ss.map Prod.fst) := by
  unfold activeCats
  exact keys_sublist_aux _ _ _ (fun kv => rfl) ss

theorem activeCats_keys_nodup (ss : ScoringSettings) (hnd : (ss.map Prod.fst).Nodup) :
    ((activeCats ss).map (·.settingKey)).Nodup :=
  hnd.sublist (activeCats_keys_sublist ss)

theorem lookup_keyed_map {β : Type} (f : CatInfo → β) (cats : List CatInfo)
    (hnd : (cats.map (·.settingKey)).Nodup) (cat : CatInfo) (hcat : cat ∈ cats) :
    (cats.map fun c => (c.settingKey, f c)).lookup cat.settingKey = some (f cat) := by
  induction cats with
  | nil => cases hcat
  | cons c rest ih =>
    rcases List.mem_cons.mp hcat with h | h
    · subst h
      simp [List.lookup]
    · have hne : c.settingKey ≠ cat.settingKey := by
        intro he
        have : c.settingKey ∈ rest.map (·.settingKey) := he ▸ List.mem_map_of_mem _ h
        exact (List.nodup_cons.mp (by simpa using hnd)).1 this
      have hfalse : (cat.settingKey == c.settingKey) = false :=
        beq_eq_false_iff_ne.mpr (Ne.symm hne)
      have hrest := ih (List.nodup_cons.mp (by simpa using hnd)).2 h
      simp [List.lookup, hfalse, hrest]

theorem playerEntry_foldl_aux (cats : List CatInfo) (lm : List (String × Baseline))
    (p : StatRecord) (acc : List (String × ℝ) × ℝ) :
    cats.foldl
      (fun (acc : List (String × ℝ) × ℝ) cat =>
        let math := (lm.lookup cat.settingKey).getD ⟨0, 1, 0⟩
        let z := playerCatZ math cat p
        (acc.1 ++ [(cat.settingKey, roundTo2R z)], acc.2 + z)) acc
      = (acc.1 ++ cats.map (fun c =>
            (c.settingKey, roundTo2R (playerCatZ ((lm.lookup c.settingKey).getD ⟨0, 1, 0⟩) c p))),
         acc.2 + (cats.map fun c =>
            playerCatZ ((lm.lookup c.settingKey).getD ⟨0, 1, 0⟩) c p).sum) := by
  induction cats generalizing acc with
  | nil => simp
  | cons c rest ih =>
    simp only [List.foldl_cons, ih, List.map_cons, List.sum_cons, Prod.mk.injEq]
    refine ⟨by simp, by ring⟩

theorem playerEntry_scores (cats : List CatInfo) (lm : List (String × Baseline))
    (p : StatRecord) :
    (playerEntry cats lm p).scores
      = cats.map fun c =>
          (c.settingKey, roundTo2R (playerCatZ ((lm.lookup c.settingKey).getD ⟨0, 1, 0⟩) c p)) := by
  unfold playerEntry
  rw [playerEntry_foldl_aux]
  simp

theorem playerEntry_totalZ (cats : List CatInfo) (lm : List (String × Baseline))
    (p : StatRecord) :
    (playerEntry cats lm p).totalZ
      = roundTo2R ((cats.map fun c =>
          playerCatZ ((lm.lookup c.settingKey).getD ⟨0, 1, 0⟩) c p).sum) := by
  unfold playerEntry
  rw [playerEntry_foldl_aux]
  simp

theorem filterMap_lookup_mem (ids : List String) (allStats : AllStats)
    (g : String → StatRecord → PlayerZScore) (id : String) (p : StatRecord)
    (hid : id ∈ ids) (hp : allStats.lookup id = some p) (hgp : ¬ p.gp = 0) :
    (ids.filterMap fun i =>
        match allStats.lookup i with
        | none => none
        | some q => if q.gp = 0 then none else some (i, g i q)).lookup id
      = some (g id p) := by
  induction ids with
  | nil => cases hid
  | cons i rest ih =>
    rcases List.mem_cons.mp hid with h | h
    · subst h
      simp only [List.filterMap_cons, hp]
      rw [if_neg hgp]
      simp [List.lookup]
    · by_cases he : i = id
      · subst he
        simp only [List.filterMap_cons, hp]
        rw [if_neg hgp]
        simp [List.lookup]
      · have hfalse : (id == i) = false := beq_eq_false_iff_ne.mpr (Ne.symm he)
        cases hlk : allStats.lookup i with
        | none => simp only [List.filterMap_cons, hlk]; exact ih h
        | some q =>
          simp only [List.filterMap_cons, hlk]
          by_cases hq : q.gp = 0
          · rw [if_pos hq]; exact ih h
          · rw [if_neg hq]
            simp only [List.lookup, hfalse]
            exact ih h

theorem calculateZScores_lookup (leagueRosters : List Roster) (allStats : AllStats)
    (ss : ScoringSettings) (id : String) (p : StatRecord)
    (hid : id ∈ populationIds leagueRosters)
    (hp : allStats.lookup id = some p) (hgp : 0 < p.gp)
    (hcats : (activeCats ss).length ≠ 0) :
    (calculateZScores leagueRosters allStats ss).lookup id
      = some (playerEntry (activeCats ss)
          (leagueMath (populationStats (populationIds leagueRosters) allStats) (activeCats ss)) p) := by
  have hpopmem : p ∈ populationStats (populationIds leagueRosters) allStats := by
    unfold populationStats
    rw [List.mem_filter]
    constructor
    · exact List.mem_filterMap.mpr ⟨id, hid, hp⟩
    · simpa using hgp
  have hpop : (populationStats (populationIds leagueRosters) allStats).length ≠ 0 := by
    intro h
    rw [List.length_eq_zero] at h
    rw [h] at hpopmem
    cases hpopmem
  unfold calculateZScores
  rw [if_neg hcats, if_neg hpop]
  exact filterMap_lookup_mem _ _ _ id p hid hp (by exact fun h => absurd h (by simpa using hgp.ne'))

theorem catBaseline_avgPct_impact (pop : List StatRecord) (cat : CatInfo)
    (him : cat.statKey ∈ impactStats) :
    (catBaseline pop cat).avgPct = leagueAvgPct pop (impactType cat.statKey) := by
  unfold catBaseline
  simp [him]

theorem catValues_eq_map_playerCatVal (pop : List StatRecord) (cat : CatInfo) :
    catValues pop cat = pop.map fun p => playerCatVal (catBaseline pop cat) cat p := by
  unfold catValues playerCatVal
  by_cases him : cat.statKey ∈ impactStats
  · rw [if_pos him]
    refine List.map_congr_left fun p _ => ?_
    rw [if_pos him, catBaseline_avgPct_impact pop cat him]
  · rw [if_neg him]
    refine List.map_congr_left fun p _ => ?_
    rw [if_neg him]

theorem leagueMath_lookup (pop : List StatRecord) (cats : List CatInfo)
    (hnd : (cats.map (·.settingKey)).Nodup) (cat : CatInfo) (hcat : cat ∈ cats) :
    (leagueMath pop cats).lookup cat.settingKey = some (catBaseline pop cat) := by
  unfold leagueMath
  exact lookup_keyed_map _ cats hnd cat hcat

theorem playerEntry_scores_lookup (pop : List StatRecord) (ss : ScoringSettings)
    (hnd : (ss.map Prod.fst).Nodup) (cat : CatInfo) (hcat : cat ∈ activeCats ss)
    (p : StatRecord) :
    (playerEntry (activeCats ss) (leagueMath pop (activeCats ss)) p).scores.lookup cat.settingKey
      = some (roundTo2R (playerCatZ (catBaseline pop cat) cat p)) := by
  rw [playerEntry_scores]
  have hnd2 := activeCats_keys_nodup ss hnd
  have h := lookup_keyed_map
    (fun c => roundTo2R (playerCatZ
      (((leagueMath pop (activeCats ss)).lookup c.settingKey).getD ⟨0, 1, 0⟩) c p))
    (activeCats ss) hnd2 cat hcat
  simpa [leagueMath_lookup pop (activeCats ss) hnd2 cat hcat] using h

theorem playerCatZ_neg_weight (math : Baseline) (cat : CatInfo) (p : StatRecord)
    (hw : cat.weight < 0) :
    playerCatZ math cat p
      = -((((playerCatVal math cat p : ℚ) : ℝ) - ((math.avg : ℚ) : ℝ)) / math.std)
          * |((cat.weight : ℚ) : ℝ)| := by
  simp only [playerCatZ, if_pos hw]
  ring

theorem lookup_cons_str {β : Type _} (k a : String) (v : β) (rest : List (String × β)) :
    List.lookup k ((a, v) :: rest) = if k = a then some v else List.lookup k rest := by
  by_cases h : k = a
  · subst h; simp [List.lookup]
  · simp [List.lookup, beq_eq_false_iff_ne.mpr h, h]

theorem catValues_of_standard (pop : List StatRecord) (cat : CatInfo)
    (him : ¬ cat.statKey ∈ impactStats) (hpr : ¬ cat.statKey ∈ pureRatioStats) :
    catValues pop cat = pop.map fun p => p.get cat.statKey / p.gp := by
  rw [catValues, if_neg him]
  exact List.map_congr_left fun p _ => if_neg hpr

theorem catValues_of_impact (pop : List StatRecord) (cat : CatInfo)
    (him : cat.statKey ∈ impactStats) :
    catValues pop cat = pop.map fun p =>
      (getSplitStats p (impactType cat.statKey)).1 / p.gp
        - ((getSplitStats p (impactType cat.statKey)).2 / p.gp)
            * leagueAvgPct pop (impactType cat.statKey) := by
  rw [catValues, if_pos him]

theorem playerCatVal_of_standard (math : Baseline) (cat : CatInfo) (p : StatRecord)
    (him : ¬ cat.statKey ∈ impactStats) (hpr : ¬ cat.statKey ∈ pureRatioStats) :
    playerCatVal math cat p = p.get cat.statKey / p.gp := by
  unfold playerCatVal
  rw [if_neg him, if_neg hpr]

theorem playerCatVal_of_impact (math : Baseline) (cat : CatInfo) (p : StatRecord)
    (him : cat.statKey ∈ impactStats) :
    playerCatVal math cat p
      = (getSplitStats p (impactType cat.statKey)).1 / p.gp
          - ((getSplitStats p (impactType cat.statKey)).2 / p.gp) * math.avgPct := by
  unfold playerCatVal
  rw [if_pos him]

theorem catBaseline_avg (pop : List StatRecord) (cat : CatInfo) :
    (catBaseline pop cat).avg = meanQ (catValues pop cat) := rfl

theorem catBaseline_std (pop : List StatRecord) (cat : CatInfo) :
    (catBaseline pop cat).std
      = if stdR (catValues pop cat) = 0 then 1 else stdR (catValues pop cat) := rfl

theorem stdR_of_sampleVar_one (l : List ℚ) (h : sampleVar l = 1) : stdR l = 1 := by
  unfold stdR
  rw [h]
  norm_num

theorem catBaseline_std_of_var_one (pop : List StatRecord) (cat : CatInfo)
    (h : sampleVar (catValues pop cat) = 1) : (catBaseline pop cat).std = 1 := by
  rw [catBaseline_std, stdR_of_sampleVar_one _ h]
  norm_num

/-! ### Evaluation lemmas for the concrete leagues -/

theorem leagueA_pop : populationStats (populationIds leagueArosters) leagueAstats = popA := by
  decide

theorem leagueA_cats : activeCats leagueAsettings = [catTo] := by decide

theorem leagueA_values : catValues popA catTo = [1, 3, 3, 1, 2] := by
  rw [catValues_of_standard _ _ (by decide) (by decide)]
  simp [popA, catTo, StatRecord.gp, StatRecord.get, lookup_cons_str]

theorem leagueA_baseline : catBaseline popA catTo = { avg := 2, std := 1, avgPct := 0 } := by
  have hstd : stdR [(1:ℚ), 3, 3, 1, 2] = 1 :=
    stdR_of_sampleVar_one _ (by norm_num [sampleVar, meanQ])
  simp only [catBaseline, leagueA_values, hstd]
  simp [Baseline.mk.injEq, catTo, impactStats]
  norm_num [meanQ]

theorem leagueA_zA : playerCatZ { avg := 2, std := 1, avgPct := 0 } catTo
    { fields := [("gp", 1), ("to", 1)] } = 1 := by
  have hval : playerCatVal { avg := 2, std := 1, avgPct := 0 } catTo
      { fields := [("gp", 1), ("to", 1)] } = 1 := by
    rw [playerCatVal_of_standard _ _ _ (by decide) (by decide)]
    simp [StatRecord.get, StatRecord.gp, catTo, lookup_cons_str]
  simp only [playerCatZ, hval]
  norm_num [catTo, abs_neg, abs_one]

theorem leagueA_zB : playerCatZ { avg := 2, std := 1, avgPct := 0 } catTo
    { fields := [("gp", 1), ("to", 3)] } = -1 := by
  have hval : playerCatVal { avg := 2, std := 1, avgPct := 0 } catTo
      { fields := [("gp", 1), ("to", 3)] } = 3 := by
    rw [playerCatVal_of_standard _ _ _ (by decide) (by decide)]
    simp [StatRecord.get, StatRecord.gp, catTo, lookup_cons_str]
  simp only [playerCatZ, hval]
  norm_num [catTo, abs_neg, abs_one]

theorem leagueA_scoreA :
    ((calculateZScores leagueArosters leagueAstats leagueAsettings).lookup "A").map
      (fun e => e.scores.lookup "to") = some (some 1) := by
  rw [calculateZScores_lookup leagueArosters leagueAstats leagueAsettings "A"
    { fields := [("gp", 1), ("to", 1)] } (by decide) (by decide) (by decide) (by decide)]
  rw [leagueA_pop, leagueA_cats]
  simp only [Option.map_some']
  rw [playerEntry_scores]
  simp only [List.map_cons, List.map_nil]
  rw [leagueMath_lookup popA [catTo] (by decide) catTo (by decide)]
  simp only [Option.getD_some]
  rw [leagueA_baseline, leagueA_zA]
  have hr : roundTo2R 1 = 1 := by norm_num [roundTo2R]
  rw [hr]
  simp [catTo, lookup_cons_str]

theorem leagueA_scoreB :
    ((calculateZScores leagueArosters leagueAstats leagueAsettings).lookup "B").map
      (fun e => e.scores.lookup "to") = some (some (-1)) := by
  rw [calculateZScores_lookup leagueArosters leagueAstats leagueAsettings "B"
    { fields := [("gp", 1), ("to", 3)] } (by decide) (by decide) (by decide) (by decide)]
  rw [leagueA_pop, leagueA_cats]
  simp only [Option.map_some']
  rw [playerEntry_scores]
  simp only [List.map_cons, List.map_nil]
  rw [leagueMath_lookup popA [catTo] (by decide) catTo (by decide)]
  simp only [Option.getD_some]
  rw [leagueA_baseline, leagueA_zB]
  have hr : roundTo2R (-1) = -1 := by norm_num [roundTo2R]
  rw [hr]
  simp [catTo, lookup_cons_str]

/-! ### Claim theorems -/

/-- C2: for every active category whose configured weight is negative and
every qualifying player, the category z stored in the player's score map
(stored after the engine's 2-decimal rounding) equals
`−((value − mean)/std) × |weight|`; in particular with weight `to = -1`
and the five-player league A (baseline mean 2.0 turnovers/game, baseline
std 1.0) the player with 1.0 turnovers/game gets `+1.0` and the player
with 3.0 gets `-1.0`. -/
theorem negWeight_sign_flip :
    (∀ (ss : ScoringSettings) (leagueRosters : List Roster) (allStats : AllStats)
      (cat : CatInfo) (id : String) (p : StatRecord) (entry : PlayerZScore),
      (ss.map Prod.fst).Nodup → cat ∈ activeCats ss → cat.weight < 0 →
      id ∈ populationIds leagueRosters → allStats.lookup id = some p → 0 < p.gp →
      (calculateZScores leagueRosters allStats ss).lookup id = some entry →
      entry.scores.lookup cat.settingKey
        = some (roundTo2R
            (-((((playerCatVal (catBaseline (populationStats (populationIds leagueRosters) allStats) cat) cat p : ℚ) : ℝ)
                - (((catBaseline (populationStats (populationIds leagueRosters) allStats) cat).avg : ℚ) : ℝ))
              / (catBaseline (populationStats (populationIds leagueRosters) allStats) cat).std)
              * |((cat.weight : ℚ) : ℝ)|)))
    ∧ ((calculateZScores leagueArosters leagueAstats leagueAsettings).lookup "A").map
        (fun e => e.scores.lookup "to") = some (some 1)
    ∧ ((calculateZScores leagueArosters leagueAstats leagueAsettings).lookup "B").map
        (fun e => e.scores.lookup "to") = some (some (-1)) := by
  refine ⟨?_, leagueA_scoreA, leagueA_scoreB⟩
  intro ss leagueRosters allStats cat id p entry hnd hcat hw hid hp hgp hentry
  have hcats : (activeCats ss).length ≠ 0 := by
    intro h
    rw [List.length_eq_zero] at h
    rw [h] at hcat
    cases hcat
  have hlk := calculateZScores_lookup leagueRosters allStats ss id p hid hp hgp hcats
  rw [hentry] at hlk
  have hE := Option.some.inj hlk
  subst hE
  rw [playerEntry_scores_lookup _ ss hnd cat hcat p, playerCatZ_neg_weight _ _ _ hw]

/-- Witness for C2: instantiated at league A's player "A". -/
theorem negWeight_sign_flip_witness :
    (leagueAsettings.map Prod.fst).Nodup ∧ catTo ∈ activeCats leagueAsettings
    ∧ catTo.weight < 0 ∧ "A" ∈ populationIds leagueArosters
    ∧ leagueAstats.lookup "A" = some { fields := [("gp", 1), ("to", 1)] }
    ∧ (0:ℚ) < ({ fields := [("gp", 1), ("to", 1)] } : StatRecord).gp
    ∧ (playerEntry (activeCats leagueAsettings)
        (leagueMath (populationStats (populationIds leagueArosters) leagueAstats)
          (activeCats leagueAsettings))
        { fields := [("gp", 1), ("to", 1)] }).scores.lookup catTo.settingKey
      = some (roundTo2R
          (-((((playerCatVal (catBaseline (populationStats (populationIds leagueArosters) leagueAstats) catTo) catTo { fields := [("gp", 1), ("to", 1)] } : ℚ) : ℝ)
              - (((catBaseline (populationStats (populationIds leagueArosters) leagueAstats) catTo).avg : ℚ) : ℝ))
            / (catBaseline (populationStats (populationIds leagueArosters) leagueAstats) catTo).std)
            * |((catTo.weight : ℚ) : ℝ)|)) := by
  refine ⟨by decide, by decide, by decide, by decide, by decide, by decide, ?_⟩
  exact negWeight_sign_flip.1 leagueAsettings leagueArosters leagueAstats catTo "A"
    { fields := [("gp", 1), ("to", 1)] } _ (by decide) (by decide) (by decide) (by decide)
    (by decide) (by decide)
    (calculateZScores_lookup leagueArosters leagueAstats leagueAsettings "A"
      { fields := [("gp", 1), ("to", 1)] } (by decide) (by decide) (by decide) (by decide))

/-- C1: for every Impact (percentage) category, the baseline's league
average rate equals the population's total made divided by total attempted
(0 when total attempted is 0); the per-player value list underlying the
baseline is `perGameMade − perGameAttempted × leagueAvgPct`; and the
z-score step evaluates the player with the same rule reusing the
baseline's already-computed `avgPct`, which is what feeds the stored
category score. -/
theorem impact_league_avg_and_reuse :
    ∀ (ss : ScoringSettings) (leagueRosters : List Roster) (allStats : AllStats)
      (cat : CatInfo) (id : String) (p : StatRecord) (entry : PlayerZScore),
      (ss.map Prod.fst).Nodup → cat ∈ activeCats ss → cat.statKey ∈ impactStats →
      id ∈ populationIds leagueRosters → allStats.lookup id = some p → 0 < p.gp →
      (calculateZScores leagueRosters allStats ss).lookup id = some entry →
      ((0 < ((populationStats (populationIds leagueRosters) allStats).map fun q =>
            (getSplitStats q (impactType cat.statKey)).2).sum →
        (catBaseline (populationStats (populationIds leagueRosters) allStats) cat).avgPct
          = ((populationStats (populationIds leagueRosters) allStats).map fun q =>
              (getSplitStats q (impactType cat.statKey)).1).sum
            / ((populationStats (populationIds leagueRosters) allStats).map fun q =>
              (getSplitStats q (impactType cat.statKey)).2).sum)
      ∧ (((populationStats (populationIds leagueRosters) allStats).map fun q =>
            (getSplitStats q (impactType cat.statKey)).2).sum = 0 →
        (catBaseline (populationStats (populationIds leagueRosters) allStats) cat).avgPct = 0)
      ∧ catValues (populationStats (populationIds leagueRosters) allStats) cat
          = (populationStats (populationIds leagueRosters) allStats).map (fun q =>
              (getSplitStats q (impactType cat.statKey)).1 / q.gp
                - ((getSplitStats q (impactType cat.statKey)).2 / q.gp)
                  * (catBaseline (populationStats (populationIds leagueRosters) allStats) cat).avgPct)
      ∧ playerCatVal (catBaseline (populationStats (populationIds leagueRosters) allStats) cat) cat p
          = (getSplitStats p (impactType cat.statKey)).1 / p.gp
              - ((getSplitStats p (impactType cat.statKey)).2 / p.gp)
                * (catBaseline (populationStats (populationIds leagueRosters) allStats) cat).avgPct
      ∧ entry.scores.lookup cat.settingKey
          = some (roundTo2R (playerCatZ
              (catBaseline (populationStats (populationIds leagueRosters) allStats) cat) cat p))) := by
  intro ss leagueRosters allStats cat id p entry hnd hcat him hid hp hgp hentry
  have havg := catBaseline_avgPct_impact
    (populationStats (populationIds leagueRosters) allStats) cat him
  refine ⟨?_, ?_, ?_, ?_, ?_⟩
  · intro hpos
    rw [havg]
    simp only [leagueAvgPct]
    rw [if_pos hpos]
  · intro h0
    rw [havg]
    simp only [leagueAvgPct]
    rw [h0, if_neg (by norm_num)]
  · rw [havg]
    exact catValues_of_impact _ cat him
  · rw [playerCatVal_of_impact _ _ _ him]
  · have hcats : (activeCats ss).length ≠ 0 := by
      intro h
      rw [List.length_eq_zero] at h
      rw [h] at hcat
      cases hcat
    have hlk := calculateZScores_lookup leagueRosters allStats ss id p hid hp hgp hcats
    rw [hentry] at hlk
    have hE := Option.some.inj hlk
    subst hE
    exact playerEntry_scores_lookup _ ss hnd cat hcat p

/-- Witness for C1: instantiated at league C (a single `fg_pct` category,
total makes 4, total attempts 6) and its player "A". -/
theorem impact_league_avg_and_reuse_witness :
    (leagueCsettings.map Prod.fst).Nodup ∧ catFgPct ∈ activeCats leagueCsettings
    ∧ catFgPct.statKey ∈ impactStats ∧ "A" ∈ populationIds leagueCrosters
    ∧ leagueCstats.lookup "A" = some { fields := [("gp", 1), ("fgm", 1), ("fga", 2)] }
    ∧ (0:ℚ) < ({ fields := [("gp", 1), ("fgm", 1), ("fga", 2)] } : StatRecord).gp
    ∧ ((0 < ((populationStats (populationIds leagueCrosters) leagueCstats).map fun q =>
            (getSplitStats q (impactType catFgPct.statKey)).2).sum →
        (catBaseline (populationStats (populationIds leagueCrosters) leagueCstats) catFgPct).avgPct
          = ((populationStats (populationIds leagueCrosters) leagueCstats).map fun q =>
              (getSplitStats q (impactType catFgPct.statKey)).1).sum
            / ((populationStats (populationIds leagueCrosters) leagueCstats).map fun q =>
              (getSplitStats q (impactType catFgPct.statKey)).2).sum)
      ∧ (((populationStats (populationIds leagueCrosters) leagueCstats).map fun q =>
            (getSplitStats q (impactType catFgPct.statKey)).2).sum = 0 →
        (catBaseline (populationStats (populationIds leagueCrosters) leagueCstats) catFgPct).avgPct = 0)
      ∧ catValues (populationStats (populationIds leagueCrosters) leagueCstats) catFgPct
          = (populationStats (populationIds leagueCrosters) leagueCstats).map (fun q =>
              (getSplitStats q (impactType catFgPct.statKey)).1 / q.gp
                - ((getSplitStats q (impactType catFgPct.statKey)).2 / q.gp)
                  * (catBaseline (populationStats (populationIds leagueCrosters) leagueCstats) catFgPct).avgPct)
      ∧ playerCatVal (catBaseline (populationStats (populationIds leagueCrosters) leagueCstats) catFgPct)
            catFgPct { fields := [("gp", 1), ("fgm", 1), ("fga", 2)] }
          = (getSplitStats { fields := [("gp", 1), ("fgm", 1), ("fga", 2)] } (impactType catFgPct.statKey)).1
                / ({ fields := [("gp", 1), ("fgm", 1), ("fga", 2)] } : StatRecord).gp
              - ((getSplitStats { fields := [("gp", 1), ("fgm", 1), ("fga", 2)] } (impactType catFgPct.statKey)).2
                / ({ fields := [("gp", 1), ("fgm", 1), ("fga", 2)] } : StatRecord).gp)
                * (catBaseline (populationStats (populationIds leagueCrosters) leagueCstats) catFgPct).avgPct
      ∧ (playerEntry (activeCats leagueCsettings)
          (leagueMath (populationStats (populationIds leagueCrosters) leagueCstats)
            (activeCats leagueCsettings))
          { fields := [("gp", 1), ("fgm", 1), ("fga", 2)] }).scores.lookup catFgPct.settingKey
          = some (roundTo2R (playerCatZ
              (catBaseline (populationStats (populationIds leagueCrosters) leagueCstats) catFgPct)
              catFgPct { fields := [("gp", 1), ("fgm", 1), ("fga", 2)] }))) := by
  refine ⟨by decide, by decide, by decide, by decide, by decide, by decide, ?_⟩
  exact impact_league_avg_and_reuse leagueCsettings leagueCrosters leagueCstats catFgPct "A"
    { fields := [("gp", 1), ("fgm", 1), ("fga", 2)] } _ (by decide) (by decide) (by decide)
    (by decide) (by decide) (by decide)
    (calculateZScores_lookup leagueCrosters leagueCstats leagueCsettings "A"
      { fields := [("gp", 1), ("fgm", 1), ("fga", 2)] } (by decide) (by decide) (by decide) (by decide))

theorem leagueB_pop : populationStats (populationIds leagueBrosters) leagueBstats = popB := by
  decide

theorem leagueB_cats : activeCats leagueBsettings = [catPts, catRebB] := by decide

theorem leagueB_values_pts : catValues popB catPts = [25/8, 3/8, 17/8, 17/8, 18/8] := by
  rw [catValues_of_standard _ _ (by decide) (by decide)]
  simp [popB, catPts, StatRecord.gp, StatRecord.get, lookup_cons_str]

theorem leagueB_values_reb : catValues popB catRebB = [25/8, 3/8, 17/8, 17/8, 18/8] := by
  rw [catValues_of_standard _ _ (by decide) (by decide)]
  simp [popB, catRebB, StatRecord.gp, StatRecord.get, lookup_cons_str]

theorem leagueB_baseline_pts : catBaseline popB catPts = { avg := 2, std := 1, avgPct := 0 } := by
  have hstd : stdR [(25:ℚ)/8, 3/8, 17/8, 17/8, 18/8] = 1 :=
    stdR_of_sampleVar_one _ (by norm_num [sampleVar, meanQ])
  simp only [catBaseline, leagueB_values_pts, hstd]
  simp [Baseline.mk.injEq, catPts, impactStats]
  norm_num [meanQ]

theorem leagueB_baseline_reb : catBaseline popB catRebB = { avg := 2, std := 1, avgPct := 0 } := by
  have hstd : stdR [(25:ℚ)/8, 3/8, 17/8, 17/8, 18/8] = 1 :=
    stdR_of_sampleVar_one _ (by norm_num [sampleVar, meanQ])
  simp only [catBaseline, leagueB_values_reb, hstd]
  simp [Baseline.mk.injEq, catRebB, impactStats]
  norm_num [meanQ]

theorem leagueB_zP_pts : playerCatZ { avg := 2, std := 1, avgPct := 0 } catPts
    { fields := [("gp", 8), ("pts", 25), ("reb", 25)] } = 9/8 := by
  have hval : playerCatVal { avg := 2, std := 1, avgPct := 0 } catPts
      { fields := [("gp", 8), ("pts", 25), ("reb", 25)] } = 25/8 := by
    rw [playerCatVal_of_standard _ _ _ (by decide) (by decide)]
    simp [StatRecord.get, StatRecord.gp, catPts, lookup_cons_str]
  simp only [playerCatZ, hval]
  norm_num [catPts, abs_one]

theorem leagueB_zP_reb : playerCatZ { avg := 2, std := 1, avgPct := 0 } catRebB
    { fields := [("gp", 8), ("pts", 25), ("reb", 25)] } = 9/8 := by
  have hval : playerCatVal { avg := 2, std := 1, avgPct := 0 } catRebB
      { fields := [("gp", 8), ("pts", 25), ("reb", 25)] } = 25/8 := by
    rw [playerCatVal_of_standard _ _ _ (by decide) (by decide)]
    simp [StatRecord.get, StatRecord.gp, catRebB, lookup_cons_str]
  simp only [playerCatZ, hval]
  norm_num [catRebB, abs_one]

theorem leagueB_entryP :
    (calculateZScores leagueBrosters leagueBstats leagueBsettings).lookup "P"
      = some (playerEntry [catPts, catRebB] (leagueMath popB [catPts, catRebB])
          { fields := [("gp", 8), ("pts", 25), ("reb", 25)] }) := by
  rw [calculateZScores_lookup leagueBrosters leagueBstats leagueBsettings "P"
    { fields := [("gp", 8), ("pts", 25), ("reb", 25)] } (by decide) (by decide) (by decide)
    (by decide)]
  rw [leagueB_pop, leagueB_cats]

theorem leagueB_scoresP :
    (playerEntry [catPts, catRebB] (leagueMath popB [catPts, catRebB])
        { fields := [("gp", 8), ("pts", 25), ("reb", 25)] }).scores
      = [("pts", 113/100), ("reb", 113/100)] := by
  rw [playerEntry_scores]
  simp only [List.map_cons, List.map_nil]
  rw [leagueMath_lookup popB [catPts, catRebB] (by decide) catPts (by decide),
    leagueMath_lookup popB [catPts, catRebB] (by decide) catRebB (by decide)]
  simp only [Option.getD_some]
  rw [leagueB_baseline_pts, leagueB_baseline_reb, leagueB_zP_pts, leagueB_zP_reb]
  have hr : roundTo2R (9/8) = 113/100 := by norm_num [roundTo2R]
  rw [hr]
  simp [catPts, catRebB]

theorem leagueB_totalP :
    (playerEntry [catPts, catRebB] (leagueMath popB [catPts, catRebB])
        { fields := [("gp", 8), ("pts", 25), ("reb", 25)] }).totalZ = 9/4 := by
  rw [playerEntry_totalZ]
  simp only [List.map_cons, List.map_nil]
  rw [leagueMath_lookup popB [catPts, catRebB] (by decide) catPts (by decide),
    leagueMath_lookup popB [catPts, catRebB] (by decide) catRebB (by decide)]
  simp only [Option.getD_some]
  rw [leagueB_baseline_pts, leagueB_baseline_reb, leagueB_zP_pts, leagueB_zP_reb]
  norm_num [roundTo2R]

/-- C3: for every qualifying player, the returned `totalZ` is the exact
sum of the unrounded per-category z values rounded to 2 decimals once at
the end, and each per-category entry of the `scores` map is independently
rounded to 2 decimals; at league B's player P the sum of the rounded
per-category entries (1.13 + 1.13) does not reproduce `totalZ` (2.25). -/
theorem totalZ_rounded_once :
    (∀ (ss : ScoringSettings) (leagueRosters : List Roster) (allStats : AllStats)
      (id : String) (p : StatRecord) (entry : PlayerZScore),
      id ∈ populationIds leagueRosters → allStats.lookup id = some p → 0 < p.gp →
      (calculateZScores leagueRosters allStats ss).lookup id = some entry →
      entry.totalZ = roundTo2R (((activeCats ss).map fun c =>
          playerCatZ (((leagueMath (populationStats (populationIds leagueRosters) allStats)
              (activeCats ss)).lookup c.settingKey).getD ⟨0, 1, 0⟩) c p).sum)
      ∧ entry.scores = (activeCats ss).map fun c =>
          (c.settingKey, roundTo2R (playerCatZ
            (((leagueMath (populationStats (populationIds leagueRosters) allStats)
              (activeCats ss)).lookup c.settingKey).getD ⟨0, 1, 0⟩) c p)))
    ∧ (∃ entry, (calculateZScores leagueBrosters leagueBstats leagueBsettings).lookup "P"
          = some entry
        ∧ (entry.scores.map Prod.snd).sum ≠ entry.totalZ) := by
  constructor
  · intro ss leagueRosters allStats id p entry hid hp hgp hentry
    by_cases hcats : (activeCats ss).length = 0
    · exfalso
      rw [List.length_eq_zero] at hcats
      unfold calculateZScores at hentry
      rw [hcats] at hentry
      simp at hentry
    · have hlk := calculateZScores_lookup leagueRosters allStats ss id p hid hp hgp hcats
      rw [hentry] at hlk
      have hE := Option.some.inj hlk
      subst hE
      exact ⟨playerEntry_totalZ _ _ _, playerEntry_scores _ _ _⟩
  · refine ⟨_, leagueB_entryP, ?_⟩
    rw [leagueB_scoresP, leagueB_totalP]
    norm_num

/-- Witness for C3: instantiated at league B's player P. -/
theorem totalZ_rounded_once_witness :
    "P" ∈ populationIds leagueBrosters
    ∧ leagueBstats.lookup "P" = some { fields := [("gp", 8), ("pts", 25), ("reb", 25)] }
    ∧ (0:ℚ) < ({ fields := [("gp", 8), ("pts", 25), ("reb", 25)] } : StatRecord).gp
    ∧ ((playerEntry (activeCats leagueBsettings)
          (leagueMath (populationStats (populationIds leagueBrosters) leagueBstats)
            (activeCats leagueBsettings))
          { fields := [("gp", 8), ("pts", 25), ("reb", 25)] }).totalZ
        = roundTo2R (((activeCats leagueBsettings).map fun c =>
            playerCatZ (((leagueMath (populationStats (populationIds leagueBrosters) leagueBstats)
                (activeCats leagueBsettings)).lookup c.settingKey).getD ⟨0, 1, 0⟩) c
              { fields := [("gp", 8), ("pts", 25), ("reb", 25)] }).sum)
      ∧ (playerEntry (activeCats leagueBsettings)
          (leagueMath (populationStats (populationIds leagueBrosters) leagueBstats)
            (activeCats leagueBsettings))
          { fields := [("gp", 8), ("pts", 25), ("reb", 25)] }).scores
        = (activeCats leagueBsettings).map fun c =>
            (c.settingKey, roundTo2R (playerCatZ
              (((leagueMath (populationStats (populationIds leagueBrosters) leagueBstats)
                (activeCats leagueBsettings)).lookup c.settingKey).getD ⟨0, 1, 0⟩) c
              { fields := [("gp", 8), ("pts", 25), ("reb", 25)] }))) := by
  refine ⟨by decide, by decide, by decide, ?_⟩
  exact totalZ_rounded_once.1 leagueBsettings leagueBrosters leagueBstats "P"
    { fields := [("gp", 8), ("pts", 25), ("reb", 25)] } _ (by decide) (by decide) (by decide)
    (calculateZScores_lookup leagueBrosters leagueBstats leagueBsettings "P"
      { fields := [("gp", 8), ("pts", 25), ("reb", 25)] } (by decide) (by decide) (by decide)
      (by decide))

theorem sampleStdDev_eq_stdR (l : List ℚ) : sampleStdDev l = stdR l := rfl

theorem leagueD_pop : populationStats (populationIds leagueDrosters) leagueDstats = popD := by
  decide

theorem leagueD_values : catValues popD catPts = [1, 3] := by
  rw [catValues_of_standard _ _ (by decide) (by decide)]
  simp [popD, catPts, StatRecord.gp, StatRecord.get, lookup_cons_str]

/-- C4 counterexample: at league D the baseline std computed by the code
is √2 (unbiased, `n − 1` normalization of mathjs `std`), not the
claim's floored population standard deviation, which is 1. -/
theorem baseline_std_not_population_std :
    (catBaseline (populationStats (populationIds leagueDrosters) leagueDstats) catPts).std
      ≠ (if popStdDev (catValues
              (populationStats (populationIds leagueDrosters) leagueDstats) catPts) = 0 then 1
         else popStdDev (catValues
              (populationStats (populationIds leagueDrosters) leagueDstats) catPts)) := by
  rw [leagueD_pop, leagueD_values]
  have hpop : popStdDev [(1:ℚ), 3] = 1 := by
    unfold popStdDev
    rw [Real.sqrt_eq_one]
    norm_num [meanQ]
  have hstd : (catBaseline popD catPts).std = Real.sqrt 2 := by
    rw [catBaseline_std, leagueD_values]
    have hv : stdR [(1:ℚ), 3] = Real.sqrt 2 := by
      unfold stdR
      rw [show sampleVar [(1:ℚ), 3] = 2 from by norm_num [sampleVar, meanQ]]
      norm_num
    rw [hv, if_neg (Real.sqrt_ne_zero'.mpr (by norm_num))]
  rw [hstd, hpop, if_neg one_ne_zero]
  intro h
  rw [Real.sqrt_eq_one] at h
  norm_num at h

/-- C4 (amended): the baseline mean is the arithmetic mean of the
per-player category values, the per-player value list agrees with the
§4.3 rule evaluated per player, and the baseline std is the unbiased
sample standard deviation (`n − 1` normalization) of those values,
replaced by 1 when it computes to 0, so the z-score divisor is never 0
(stated for populations of at least two qualifying players). -/
theorem baseline_mean_and_sample_std :
    ∀ (ss : ScoringSettings) (leagueRosters : List Roster) (allStats : AllStats)
      (cat : CatInfo), cat ∈ activeCats ss →
      2 ≤ (populationStats (populationIds leagueRosters) allStats).length →
      ((catBaseline (populationStats (populationIds leagueRosters) allStats) cat).avg
          = (catValues (populationStats (populationIds leagueRosters) allStats) cat).sum
            / (catValues (populationStats (populationIds leagueRosters) allStats) cat).length
      ∧ catValues (populationStats (populationIds leagueRosters) allStats) cat
          = (populationStats (populationIds leagueRosters) allStats).map (fun p =>
              playerCatVal (catBaseline (populationStats (populationIds leagueRosters) allStats) cat) cat p)
      ∧ (catBaseline (populationStats (populationIds leagueRosters) allStats) cat).std
          = (if sampleStdDev (catValues (populationStats (populationIds leagueRosters) allStats) cat) = 0
             then 1
             else sampleStdDev (catValues (populationStats (populationIds leagueRosters) allStats) cat))
      ∧ (catBaseline (populationStats (populationIds leagueRosters) allStats) cat).std ≠ 0) := by
  intro ss leagueRosters allStats cat hcat h2
  refine ⟨catBaseline_avg _ _, catValues_eq_map_playerCatVal _ _, ?_, ?_⟩
  · rw [catBaseline_std, sampleStdDev_eq_stdR]
  · rcases eq_or_ne (stdR (catValues (populationStats (populationIds leagueRosters) allStats) cat)) 0
      with h | h
    · rw [catBaseline_std, if_pos h]
      norm_num
    · rw [catBaseline_std, if_neg h]
      exact h

/-- Witness for the amended C4: instantiated at league D's points
category (population of two qualifying players). -/
theorem baseline_mean_and_sample_std_witness :
    catPts ∈ activeCats leagueDsettings
    ∧ 2 ≤ (populationStats (populationIds leagueDrosters) leagueDstats).length
    ∧ ((catBaseline (populationStats (populationIds leagueDrosters) leagueDstats) catPts).avg
        = (catValues (populationStats (populationIds leagueDrosters) leagueDstats) catPts).sum
          / (catValues (populationStats (populationIds leagueDrosters) leagueDstats) catPts).length
      ∧ catValues (populationStats (populationIds leagueDrosters) leagueDstats) catPts
        = (populationStats (populationIds leagueDrosters) leagueDstats).map (fun p =>
            playerCatVal (catBaseline (populationStats (populationIds leagueDrosters) leagueDstats) catPts) catPts p)
      ∧ (catBaseline (populationStats (populationIds leagueDrosters) leagueDstats) catPts).std
        = (if sampleStdDev (catValues (populationStats (populationIds leagueDrosters) leagueDstats) catPts) = 0
           then 1
           else sampleStdDev (catValues (populationStats (populationIds leagueDrosters) leagueDstats) catPts))
      ∧ (catBaseline (populationStats (populationIds leagueDrosters) leagueDstats) catPts).std ≠ 0) := by
  refine ⟨by decide, by decide, ?_⟩
  exact baseline_mean_and_sample_std leagueDsettings leagueDrosters leagueDstats catPts
    (by decide) (by decide)

theorem leagueE_pop : populationStats (populationIds leagueErosters) leagueEstats = popE := by
  decide

theorem leagueE_dedup_pop :
    populationStats (dedupPopulationIds leagueErosters) leagueEstats
      = [ { fields := [("gp", 1), ("pts", 3)] }
        , { fields := [("gp", 1), ("pts", 0)] } ] := by
  decide

theorem leagueE_values : catValues popE catPts = [3, 3, 0] := by
  rw [catValues_of_standard _ _ (by decide) (by decide)]
  simp [popE, catPts, StatRecord.gp, StatRecord.get, lookup_cons_str]

theorem leagueE_dedup_values :
    catValues [ ({ fields := [("gp", 1), ("pts", 3)] } : StatRecord)
              , { fields := [("gp", 1), ("pts", 0)] } ] catPts = [3, 0] := by
  rw [catValues_of_standard _ _ (by decide) (by decide)]
  simp [catPts, StatRecord.gp, StatRecord.get, lookup_cons_str]

/-- C5 counterexample: in league E player A is on two rosters; the
population the code feeds into the baselines carries A's record twice, so
the points baseline mean is 2, while the duplicate-free (set-semantics)
population of the claim would give 3/2. -/
theorem population_counts_duplicates :
    (catBaseline (populationStats (populationIds leagueErosters) leagueEstats) catPts).avg = 2
    ∧ (catBaseline (populationStats (dedupPopulationIds leagueErosters) leagueEstats) catPts).avg
        = 3/2
    ∧ (2 : ℚ) ≠ 3/2 := by
  refine ⟨?_, ?_, by norm_num⟩
  · rw [catBaseline_avg, leagueE_pop, leagueE_values]
    norm_num [meanQ]
  · rw [catBaseline_avg, leagueE_dedup_pop, leagueE_dedup_values]
    norm_num [meanQ]

/-- C5 (amended): the population is the concatenation of all rosters'
player lists restricted to ids whose record exists with `gp > 0` — ids
missing from the stats map are skipped without error, and a player id
contributes once per roster appearance (multiset semantics, duplicates
are not removed). -/
theorem population_concat_and_filter :
    (∀ (ids : List String) (allStats : AllStats),
      populationStats ids allStats = ids.filterMap fun id =>
        match allStats.lookup id with
        | some s => if 0 < s.gp then some s else none
        | none => none)
    ∧ (∀ (leagueRosters : List Roster) (id : String),
        (populationIds leagueRosters).count id
          = (leagueRosters.map fun r => r.players.count id).sum) := by
  constructor
  · intro ids allStats
    induction ids with
    | nil => rfl
    | cons i rest ih =>
      unfold populationStats at ih ⊢
      simp only [List.filterMap_cons]
      cases hlk : allStats.lookup i with
      | none => exact ih
      | some s =>
        by_cases hgp : 0 < s.gp
        · simp [List.filter_cons, hgp, ih]
        · simp [List.filter_cons, hgp, ih]
  · exact populationIds_count

/-- C9: a missing record or one with `gp = 0` yields the N/A consistency
record with mean, std and cv all 0; for `gp > 0` the risk label is High
when the estimated coefficient of variation exceeds 0.4, Medium when it
exceeds 0.25, and Low otherwise. -/
theorem consistency_na_and_risk :
    calculateConsistency none = { mean := 0, std := 0, cv := 0, riskLevel := "N/A" }
    ∧ (∀ ps : StatRecord, ps.gp = 0 →
        calculateConsistency (some ps) = { mean := 0, std := 0, cv := 0, riskLevel := "N/A" })
    ∧ (∀ ps : StatRecord, 0 < ps.gp →
        (2/5 < estimatedCV ps → (calculateConsistency (some ps)).riskLevel = "High")
        ∧ (estimatedCV ps ≤ 2/5 → 1/4 < estimatedCV ps →
            (calculateConsistency (some ps)).riskLevel = "Medium")
        ∧ (estimatedCV ps ≤ 1/4 → (calculateConsistency (some ps)).riskLevel = "Low")) := by
  refine ⟨rfl, ?_, ?_⟩
  · intro ps h
    simp only [calculateConsistency]
    rw [if_pos h]
  · intro ps h
    have hne : ¬ ps.gp = 0 := h.ne'
    refine ⟨?_, ?_, ?_⟩
    · intro hcv
      simp only [calculateConsistency]
      rw [if_neg hne]
      simp only
      rw [if_pos hcv]
    · intro hle hcv
      simp only [calculateConsistency]
      rw [if_neg hne]
      simp only
      rw [if_neg (not_lt.mpr hle), if_pos hcv]
    · intro hle
      simp only [calculateConsistency]
      rw [if_neg hne]
      simp only
      rw [if_neg (not_lt.mpr (hle.trans (by norm_num))), if_neg (not_lt.mpr hle)]

/-- Witness for C9: a 1-game, 30-point, 5-rebound, 5-assist record has
estimated cv 8/45 ≤ 1/4 and is labelled Low. -/
theorem consistency_na_and_risk_witness :
    (0:ℚ) < ({ fields := [("gp", 1), ("pts", 30), ("reb", 5), ("ast", 5)] } : StatRecord).gp
    ∧ estimatedCV { fields := [("gp", 1), ("pts", 30), ("reb", 5), ("ast", 5)] } ≤ 1/4
    ∧ (calculateConsistency
        (some { fields := [("gp", 1), ("pts", 30), ("reb", 5), ("ast", 5)] })).riskLevel
      = "Low" := by
  have hcv : estimatedCV { fields := [("gp", 1), ("pts", 30), ("reb", 5), ("ast", 5)] } ≤ 1/4 := by
    simp [estimatedCV, StatRecord.get, StatRecord.gp, lookup_cons_str]
    norm_num
  refine ⟨by decide, hcv, ?_⟩
  exact (consistency_na_and_risk.2.2 _ (by decide)).2.2 hcv

/-- C10: when the requesting roster id matches no roster in the league
list, `recommendTrades` returns the empty list whatever the other
arguments are. -/
theorem trades_empty_when_roster_unknown :
    ∀ (myRosterId : ℤ) (leagueRosters : List Roster) (playerZScores : ZScoreMap)
      (needCategory spareCategory : String) (ownerDisplayNames : List (String × String)),
      (∀ r ∈ leagueRosters, r.roster_id ≠ myRosterId) →
      recommendTrades myRosterId leagueRosters playerZScores needCategory spareCategory
        ownerDisplayNames = [] := by
  intro my rs zs need spare own h
  unfold recommendTrades
  have hfind : rs.find? (fun r => decide (r.roster_id = my)) = none :=
    List.find?_eq_none.mpr fun r hr => by simpa using h r hr
  rw [hfind]

/-- Witness for C10: a league whose only roster has id 2, queried for id 1. -/
theorem trades_empty_when_roster_unknown_witness :
    (∀ r ∈ [({ roster_id := 2, players := ["X"] } : Roster)], r.roster_id ≠ 1)
    ∧ recommendTrades 1 [{ roster_id := 2, players := ["X"] }] [] "ast" "blk" [] = [] := by
  refine ⟨by decide, ?_⟩
  exact trades_empty_when_roster_unknown 1 _ [] "ast" "blk" [] (by decide)

theorem lookup_isSome_of_mem {β : Type _} (l : List (String × β)) (kv : String × β)
    (h : kv ∈ l) : (List.lookup kv.1 l).isSome := by
  induction l with
  | nil => cases h
  | cons a rest ih =>
    rw [show a = (a.1, a.2) from rfl, lookup_cons_str]
    by_cases he : kv.1 = a.1
    · rw [if_pos he]
      rfl
    · rcases List.mem_cons.mp h with h1 | h1
      · exact absurd (congrArg Prod.fst h1) he
      · rw [if_neg he]
        exact ih h1

theorem calculateTrends_trends (seasonZScores recentZScores : ZScoreMap)
    (seasonStats recentStats : AllStats) :
    (calculateTrends seasonZScores recentZScores seasonStats recentStats).trends
      = seasonZScores.filterMap fun kv =>
          match List.lookup kv.1 recentZScores with
          | none => none
          | some rz => some (trendRecord kv.1 kv.2 rz seasonStats recentStats) := rfl

/-- C6: a trend record is emitted exactly for players present in both the
season and recent z-score maps (a player missing from either map yields
no record), the emitted record's classification follows the spec's
first-matching-rule list, and the season 1.0 / recent −1.0 instance is
classified BUY_LOW. -/
theorem trend_emission_and_rules :
    (∀ (seasonZScores recentZScores : ZScoreMap) (seasonStats recentStats : AllStats),
      (∀ t ∈ (calculateTrends seasonZScores recentZScores seasonStats recentStats).trends,
        (List.lookup t.playerId seasonZScores).isSome
          ∧ (List.lookup t.playerId recentZScores).isSome)
      ∧ (∀ pid : String,
          (List.lookup pid seasonZScores = none ∨ List.lookup pid recentZScores = none) →
          ∀ t ∈ (calculateTrends seasonZScores recentZScores seasonStats recentStats).trends,
            t.playerId ≠ pid)
      ∧ (∀ kv ∈ seasonZScores, ∀ rz, List.lookup kv.1 recentZScores = some rz →
          trendRecord kv.1 kv.2 rz seasonStats recentStats
              ∈ (calculateTrends seasonZScores recentZScores seasonStats recentStats).trends
            ∧ (trendRecord kv.1 kv.2 rz seasonStats recentStats).status
              = trendStatusSpec kv.2.totalZ rz.totalZ))
    ∧ ((calculateTrends [("p", { name := "P", totalZ := 1 })] [("p", { totalZ := -1 })]
          [] []).trends.map fun t => t.status) = [TrendStatus.BUY_LOW] := by
  constructor
  · intro seasonZScores recentZScores seasonStats recentStats
    have hmemchar : ∀ t ∈ (calculateTrends seasonZScores recentZScores seasonStats
        recentStats).trends, ∃ kv ∈ seasonZScores, ∃ rz,
          List.lookup kv.1 recentZScores = some rz
          ∧ t = trendRecord kv.1 kv.2 rz seasonStats recentStats := by
      intro t ht
      rw [calculateTrends_trends] at ht
      rcases List.mem_filterMap.mp ht with ⟨kv, hkv, heq⟩
      cases hlk : List.lookup kv.1 recentZScores with
      | none => rw [hlk] at heq; cases heq
      | some rz =>
        rw [hlk] at heq
        exact ⟨kv, hkv, rz, hlk, (Option.some.inj heq).symm⟩
    have ha : ∀ t ∈ (calculateTrends seasonZScores recentZScores seasonStats
        recentStats).trends,
        (List.lookup t.playerId seasonZScores).isSome
          ∧ (List.lookup t.playerId recentZScores).isSome := by
      intro t ht
      rcases hmemchar t ht with ⟨kv, hkv, rz, hlk, heq⟩
      have hpid : t.playerId = kv.1 := by rw [heq]; rfl
      rw [hpid]
      exact ⟨lookup_isSome_of_mem seasonZScores kv hkv, by rw [hlk]; rfl⟩
    refine ⟨ha, ?_, ?_⟩
    · intro pid hpid t ht heq
      rcases ha t ht with ⟨h1, h2⟩
      rw [heq] at h1 h2
      rcases hpid with h | h
      · rw [h] at h1; cases h1
      · rw [h] at h2; cases h2
    · intro kv hkv rz hlk
      refine ⟨?_, rfl⟩
      rw [calculateTrends_trends]
      refine List.mem_filterMap.mpr ⟨kv, hkv, ?_⟩
      rw [hlk]
  · simp [calculateTrends_trends, List.filterMap_cons, lookup_cons_str, trendRecord]
    norm_num [trendStatusOf]

/-- Witness for C6: the singleton maps with season total Z 1.0 and recent
total Z −1.0. -/
theorem trend_emission_and_rules_witness :
    (("p", ({ name := "P", totalZ := 1 } : ZScoreEntry))
        ∈ [("p", ({ name := "P", totalZ := 1 } : ZScoreEntry))])
    ∧ List.lookup "p" [("p", ({ totalZ := -1 } : ZScoreEntry))]
        = some ({ totalZ := -1 } : ZScoreEntry)
    ∧ (trendRecord "p" { name := "P", totalZ := 1 } { totalZ := -1 } [] []
          ∈ (calculateTrends [("p", { name := "P", totalZ := 1 })]
              [("p", { totalZ := -1 })] [] []).trends
        ∧ (trendRecord "p" { name := "P", totalZ := 1 } { totalZ := -1 } [] []).status
          = trendStatusSpec 1 (-1)) := by
  refine ⟨by decide, by decide, ?_⟩
  exact (trend_emission_and_rules.1 [("p", { name := "P", totalZ := 1 })]
    [("p", { totalZ := -1 })] [] []).2.2 ("p", { name := "P", totalZ := 1 }) (by decide)
    { totalZ := -1 } (by decide)

theorem pairwise_mergeSort_descQ {α : Type _} (f : α → ℚ) (l : List α) :
    (l.mergeSort fun a b => decide (f b ≤ f a)).Pairwise fun a b => f b ≤ f a := by
  have htrans : ∀ a b c : α, (fun a b => decide (f b ≤ f a)) a b = true →
      (fun a b => decide (f b ≤ f a)) b c = true →
      (fun a b => decide (f b ≤ f a)) a c = true := by
    intro a b c h1 h2
    simp only [decide_eq_true_eq] at h1 h2 ⊢
    exact h2.trans h1
  have htotal : ∀ a b : α,
      ((fun a b => decide (f b ≤ f a)) a b || (fun a b => decide (f b ≤ f a)) b a) = true := by
    intro a b
    rcases le_total (f b) (f a) with h | h <;> simp [h]
  have h := List.sorted_mergeSort htrans htotal l
  exact h.imp fun hab => by simpa using hab

theorem length_filterMap_eq_length_filter {α β : Type _} (g : α → Option β) (q : α → Bool)
    (hq : ∀ a, (g a).isSome = q a) (l : List α) :
    (l.filterMap g).length = (l.filter q).length := by
  induction l with
  | nil => rfl
  | cons a rest ih =>
    rw [List.filterMap_cons, List.filter_cons]
    cases hga : g a with
    | none =>
      have : q a = false := by rw [← hq a, hga]; rfl
      rw [this]
      simpa using ih
    | some b =>
      have : q a = true := by rw [← hq a, hga]; rfl
      rw [this]
      simpa using ih

theorem sum_map_ite_zero {α : Type _} (P : α → Prop) [DecidablePred P] (k : α → ℕ)
    (l : List α) :
    (l.map fun a => if P a then 0 else k a).sum
      = ((l.filter fun a => decide (¬ P a)).map k).sum := by
  induction l with
  | nil => rfl
  | cons a rest ih =>
    by_cases h : P a
    · simp [h, ih]
    · simp [h, ih]

theorem flatMap_enumFrom_length {α β : Type _} (f : ℕ × α → List β) (k : α → ℕ)
    (hf : ∀ p : ℕ × α, (f p).length = k p.2) (n : ℕ) (l : List α) :
    ((List.enumFrom n l).flatMap f).length = (l.map k).sum := by
  induction l generalizing n with
  | nil => rfl
  | cons a rest ih =>
    rw [List.enumFrom_cons, List.flatMap_cons, List.length_append, hf, List.map_cons,
      List.sum_cons, ih]

theorem recommendTrades_eq_mergeSort (myRosterId : ℤ) (leagueRosters : List Roster)
    (playerZScores : ZScoreMap) (needCategory spareCategory : String)
    (ownerDisplayNames : List (String × String)) (r0 : Roster)
    (hr0 : leagueRosters.find? (fun r => decide (r.roster_id = myRosterId)) = some r0) :
    recommendTrades myRosterId leagueRosters playerZScores needCategory spareCategory
        ownerDisplayNames
      = (tradeCandidates myRosterId leagueRosters playerZScores needCategory spareCategory
          ownerDisplayNames).mergeSort fun a b => decide (b.tradeScore ≤ a.tradeScore) := by
  unfold recommendTrades
  rw [hr0]

theorem tradeCandidates_length (myRosterId : ℤ) (leagueRosters : List Roster)
    (playerZScores : ZScoreMap) (needCategory spareCategory : String)
    (ownerDisplayNames : List (String × String)) :
    (tradeCandidates myRosterId leagueRosters playerZScores needCategory spareCategory
        ownerDisplayNames).length
      = ((leagueRosters.filter fun r => decide (¬ r.roster_id = myRosterId)).map fun r =>
          (r.players.filter fun pid => (List.lookup pid playerZScores).isSome).length).sum := by
  unfold tradeCandidates
  refine Eq.trans (flatMap_enumFrom_length _ _ ?_ 0 leagueRosters)
    (sum_map_ite_zero _ _ leagueRosters)
  intro p
  simp only []
  by_cases hid : p.2.roster_id = myRosterId
  · rw [if_pos hid, if_pos hid]
    rfl
  · rw [if_neg hid, if_neg hid]
    refine length_filterMap_eq_length_filter _ _ ?_ _
    intro pid
    unfold ZScoreMap.lookup
    cases hlk : List.lookup pid playerZScores with
    | none => rfl
    | some e => rfl

theorem tradeCandidates_mem (myRosterId : ℤ) (leagueRosters : List Roster)
    (playerZScores : ZScoreMap) (needCategory spareCategory : String)
    (ownerDisplayNames : List (String × String)) (rec : TradeRecommendation)
    (h : rec ∈ tradeCandidates myRosterId leagueRosters playerZScores needCategory
        spareCategory ownerDisplayNames) :
    ∃ e, List.lookup rec.playerId playerZScores = some e
      ∧ rec.needCategoryZ = (List.lookup needCategory e.scores).getD 0
      ∧ rec.spareCategoryZ = (List.lookup spareCategory e.scores).getD 0
      ∧ rec.tradeScore = rec.needCategoryZ - rec.spareCategoryZ := by
  unfold tradeCandidates at h
  rcases List.mem_flatMap.mp h with ⟨ri, hri, hmem⟩
  by_cases hid : ri.2.roster_id = myRosterId
  · rw [if_pos hid] at hmem
    cases hmem
  · rw [if_neg hid] at hmem
    rcases List.mem_filterMap.mp hmem with ⟨pid, hpid, hg⟩
    cases hlk : ZScoreMap.lookup playerZScores pid with
    | none =>
      simp only [hlk] at hg
      exact Option.noConfusion hg
    | some e =>
      simp only [hlk] at hg
      have hE := Option.some.inj hg
      subst hE
      exact ⟨e, hlk, rfl, rfl, rfl⟩

/-- C8: when the requesting roster exists, `recommendTrades` returns one
recommendation per player on every other roster with a z-score entry (no
cap), each scored `needCategoryZ − spareCategoryZ` with missing category
entries defaulting to 0, and the list is sorted non-increasing by trade
score. -/
theorem trade_recs_complete_and_sorted :
    ∀ (myRosterId : ℤ) (leagueRosters : List Roster) (playerZScores : ZScoreMap)
      (needCategory spareCategory : String) (ownerDisplayNames : List (String × String)),
      (leagueRosters.find? fun r => decide (r.roster_id = myRosterId)).isSome →
      ((recommendTrades myRosterId leagueRosters playerZScores needCategory spareCategory
          ownerDisplayNames).length
        = ((leagueRosters.filter fun r => decide (¬ r.roster_id = myRosterId)).map fun r =>
            (r.players.filter fun pid => (List.lookup pid playerZScores).isSome).length).sum
      ∧ (recommendTrades myRosterId leagueRosters playerZScores needCategory spareCategory
          ownerDisplayNames).Pairwise (fun a b => b.tradeScore ≤ a.tradeScore)
      ∧ ∀ rec ∈ recommendTrades myRosterId leagueRosters playerZScores needCategory
          spareCategory ownerDisplayNames,
          ∃ e, List.lookup rec.playerId playerZScores = some e
            ∧ rec.needCategoryZ = (List.lookup needCategory e.scores).getD 0
            ∧ rec.spareCategoryZ = (List.lookup spareCategory e.scores).getD 0
            ∧ rec.tradeScore = rec.needCategoryZ - rec.spareCategoryZ) := by
  intro myRosterId leagueRosters playerZScores needCategory spareCategory ownerDisplayNames
    hfind
  obtain ⟨r0, hr0⟩ := Option.isSome_iff_exists.mp hfind
  have heq := recommendTrades_eq_mergeSort myRosterId leagueRosters playerZScores
    needCategory spareCategory ownerDisplayNames r0 hr0
  refine ⟨?_, ?_, ?_⟩
  · rw [heq, (List.mergeSort_perm _ _).length_eq]
    exact tradeCandidates_length myRosterId leagueRosters playerZScores needCategory
      spareCategory ownerDisplayNames
  · rw [heq]
    exact pairwise_mergeSort_descQ (fun x : TradeRecommendation => x.tradeScore) _
  · intro rec hrec
    rw [heq] at hrec
    exact tradeCandidates_mem myRosterId leagueRosters playerZScores needCategory
      spareCategory ownerDisplayNames rec ((List.mergeSort_perm _ _).mem_iff.mp hrec)

/-- Witness for C8: requesting roster 1 in a two-roster league where the
other roster's only player has a z-score entry. -/
theorem trade_recs_complete_and_sorted_witness :
    (tradeRosters.find? fun r => decide (r.roster_id = 1)).isSome
    ∧ ((recommendTrades 1 tradeRosters tradeZMap "ast" "blk" []).length
        = ((tradeRosters.filter fun r => decide (¬ r.roster_id = 1)).map fun r =>
            (r.players.filter fun pid => (List.lookup pid tradeZMap).isSome).length).sum
      ∧ (recommendTrades 1 tradeRosters tradeZMap "ast" "blk" []).Pairwise
          (fun a b => b.tradeScore ≤ a.tradeScore)
      ∧ ∀ rec ∈ recommendTrades 1 tradeRosters tradeZMap "ast" "blk" [],
          ∃ e, List.lookup rec.playerId tradeZMap = some e
            ∧ rec.needCategoryZ = (List.lookup "ast" e.scores).getD 0
            ∧ rec.spareCategoryZ = (List.lookup "blk" e.scores).getD 0
            ∧ rec.tradeScore = rec.needCategoryZ - rec.spareCategoryZ) := by
  refine ⟨by decide, ?_⟩
  exact trade_recs_complete_and_sorted 1 tradeRosters tradeZMap "ast" "blk" [] (by decide)

theorem collectFreeAgents_sorted (playerZScores : ZScoreMap)
    (playersMap : List (String × PlayerMeta)) (rosteredSet : List String) :
    (collectFreeAgents playerZScores playersMap rosteredSet).Pairwise
      fun a b => b.zScore ≤ a.zScore := by
  unfold collectFreeAgents
  refine List.Pairwise.sublist (List.take_sublist _ _) ?_
  exact pairwise_mergeSort_descQ (fun x : StreamCandidate => x.zScore) _

theorem collectFreeAgents_length (playerZScores : ZScoreMap)
    (playersMap : List (String × PlayerMeta)) (rosteredSet : List String) :
    (collectFreeAgents playerZScores playersMap rosteredSet).length ≤ 200 := by
  unfold collectFreeAgents
  exact List.length_take_le _ _

theorem collectFreeAgents_mem (playerZScores : ZScoreMap)
    (playersMap : List (String × PlayerMeta)) (rosteredSet : List String)
    (fa : StreamCandidate) (h : fa ∈ collectFreeAgents playerZScores playersMap rosteredSet) :
    (List.lookup fa.playerId playerZScores).isSome
      ∧ fa.playerId ∉ rosteredSet ∧ fa.team ≠ "" := by
  unfold collectFreeAgents at h
  have h2 : fa ∈ (playerZScores.filterMap fun kv =>
      if kv.1 ∈ rosteredSet then none
      else
        let meta := getPlayerMeta kv.1 playersMap
        if meta.team = "" then none
        else some
          { playerId := kv.1
          , name := meta.name
          , positions := meta.positions
          , team := meta.team
          , isStarter := false
          , zScore := kv.2.totalZ
          , upcomingGames := []
          , reason := "Top free agent by z-score" }) :=
    (List.mergeSort_perm _ _).mem_iff.mp ((List.take_sublist _ _).subset h)
  rcases List.mem_filterMap.mp h2 with ⟨kv, hkv, heq⟩
  by_cases hr : kv.1 ∈ rosteredSet
  · rw [if_pos hr] at heq
    cases heq
  · rw [if_neg hr] at heq
    simp only at heq
    by_cases ht : (getPlayerMeta kv.1 playersMap).team = ""
    · rw [if_pos ht] at heq
      cases heq
    · rw [if_neg ht] at heq
      have hE := Option.some.inj heq
      rw [← hE]
      exact ⟨lookup_isSome_of_mem playerZScores kv hkv, hr, ht⟩

theorem sdp_activeSlots (A : ℕ) (RP : List PlayerStreamingInfo) (FA : List StreamCandidate)
    (TGM : List (String × List NBAGameSummary)) (day : DailySchedule) :
    (streamingDayPlan A RP FA TGM day).activeSlots = A := rfl

theorem sdp_teamsPlaying (A : ℕ) (RP : List PlayerStreamingInfo) (FA : List StreamCandidate)
    (TGM : List (String × List NBAGameSummary)) (day : DailySchedule) :
    (streamingDayPlan A RP FA TGM day).teamsPlaying = day.teamsPlaying := rfl

theorem sdp_playersAvailable (A : ℕ) (RP : List PlayerStreamingInfo)
    (FA : List StreamCandidate) (TGM : List (String × List NBAGameSummary))
    (day : DailySchedule) :
    (streamingDayPlan A RP FA TGM day).playersAvailable
      = (RP.filter fun player =>
          decide (player.team ≠ "" ∧ player.team ∈ day.teamsPlaying)).length := rfl

theorem sdp_holes (A : ℕ) (RP : List PlayerStreamingInfo) (FA : List StreamCandidate)
    (TGM : List (String × List NBAGameSummary)) (day : DailySchedule) :
    (streamingDayPlan A RP FA TGM day).holes
      = max 0 ((A : ℤ) - (RP.filter fun player =>
          decide (player.team ≠ "" ∧ player.team ∈ day.teamsPlaying)).length) := rfl

theorem sdp_recommendations (A : ℕ) (RP : List PlayerStreamingInfo)
    (FA : List StreamCandidate) (TGM : List (String × List NBAGameSummary))
    (day : DailySchedule) :
    (streamingDayPlan A RP FA TGM day).recommendations
      = if 0 < max 0 ((A : ℤ) - (RP.filter fun player =>
            decide (player.team ≠ "" ∧ player.team ∈ day.teamsPlaying)).length)
        then ((enrichCandidates (FA.filter fun agent =>
                decide (agent.team ≠ "" ∧ agent.team ∈ day.teamsPlaying)) TGM day.date 3).map
              fun entry => { entry with reason :=
                "Plays on " ++ day.date ++ " and ranks among top available z-scores" }).take
            (min (max 0 ((A : ℤ) - (RP.filter fun player =>
              decide (player.team ≠ "" ∧ player.team ∈ day.teamsPlaying)).length) * 2) 5).toNat
        else [] := rfl

theorem streamingDayPlan_spec (A : ℕ) (RP : List PlayerStreamingInfo)
    (FA : List StreamCandidate) (TGM : List (String × List NBAGameSummary))
    (day : DailySchedule) (hFA : FA.Pairwise fun a b => b.zScore ≤ a.zScore) :
    (streamingDayPlan A RP FA TGM day).activeSlots = A
    ∧ (streamingDayPlan A RP FA TGM day).playersAvailable
        = (RP.filter fun player => decide (player.team ≠ ""
            ∧ player.team ∈ (streamingDayPlan A RP FA TGM day).teamsPlaying)).length
    ∧ (streamingDayPlan A RP FA TGM day).holes
        = max 0 (((streamingDayPlan A RP FA TGM day).activeSlots : ℤ)
            - (streamingDayPlan A RP FA TGM day).playersAvailable)
    ∧ ((streamingDayPlan A RP FA TGM day).holes = 0 →
        (streamingDayPlan A RP FA TGM day).recommendations = [])
    ∧ ((streamingDayPlan A RP FA TGM day).recommendations.length : ℤ)
        ≤ min ((streamingDayPlan A RP FA TGM day).holes * 2) 5
    ∧ (streamingDayPlan A RP FA TGM day).recommendations.Pairwise
        (fun a b => b.zScore ≤ a.zScore)
    ∧ ∀ c ∈ (streamingDayPlan A RP FA TGM day).recommendations,
        (c.team ≠ "" ∧ c.team ∈ (streamingDayPlan A RP FA TGM day).teamsPlaying)
        ∧ ∃ fa ∈ FA, fa.playerId = c.playerId ∧ fa.zScore = c.zScore ∧ fa.team = c.team := by
  refine ⟨rfl, rfl, rfl, ?_, ?_, ?_, ?_⟩
  · intro h
    rw [sdp_recommendations]
    have hz : max 0 ((A : ℤ) - (RP.filter fun player =>
        decide (player.team ≠ "" ∧ player.team ∈ day.teamsPlaying)).length) = 0 := h
    rw [hz, if_neg (lt_irrefl 0)]
  · rw [sdp_holes, sdp_recommendations]
    by_cases hpos : 0 < max 0 ((A : ℤ) - (RP.filter fun player =>
        decide (player.team ≠ "" ∧ player.team ∈ day.teamsPlaying)).length)
    · rw [if_pos hpos, List.length_take]
      omega
    · rw [if_neg hpos]
      simp only [List.length_nil]
      omega
  · rw [sdp_recommendations]
    by_cases hpos : 0 < max 0 ((A : ℤ) - (RP.filter fun player =>
        decide (player.team ≠ "" ∧ player.team ∈ day.teamsPlaying)).length)
    · rw [if_pos hpos]
      refine List.Pairwise.sublist (List.take_sublist _ _) ?_
      refine List.Pairwise.map _ (fun a b hab => hab) ?_
      unfold enrichCandidates
      refine List.Pairwise.map _ (fun a b hab => hab) ?_
      exact List.Pairwise.sublist (List.filter_sublist _) hFA
    · rw [if_neg hpos]
      exact List.Pairwise.nil
  · intro c hc
    rw [sdp_recommendations] at hc
    by_cases hpos : 0 < max 0 ((A : ℤ) - (RP.filter fun player =>
        decide (player.team ≠ "" ∧ player.team ∈ day.teamsPlaying)).length)
    · rw [if_pos hpos] at hc
      have hc2 := (List.take_sublist _ _).subset hc
      rcases List.mem_map.mp hc2 with ⟨c2, hc2m, heq2⟩
      unfold enrichCandidates at hc2m
      rcases List.mem_map.mp hc2m with ⟨c3, hc3m, heq3⟩
      have hf := List.mem_filter.mp hc3m
      have hcond := of_decide_eq_true hf.2
      subst heq2
      subst heq3
      exact ⟨hcond, c3, hf.1, rfl, rfl, rfl⟩
    · rw [if_neg hpos] at hc
      cases hc

theorem buildStreamingPlan_days (input : StreamingInput) :
    (buildStreamingPlan input).days
      = input.dailySchedule.map fun day =>
          streamingDayPlan (getActiveSlotCount input.rosterPositions) (rosterPlayersOf input)
            (collectFreeAgents input.playerZScores input.playersMap
              (buildRosteredSet input.allRosters)) input.teamGameMap day := rfl

/-- C7: for every day of the schedule window, `holes` equals
`max(0, activeSlots − number of target-roster players whose team plays
that day)`; the recommendations are empty when `holes = 0`, at most
`min(holes × 2, 5)` long, sorted descending by z-score, and drawn from the
free-agent pool (players with a z-score entry, not on any roster, with a
resolved team, capped at the top 200 by total Z) restricted to teams
playing that day. -/
theorem streaming_holes_and_recommendations :
    (∀ (input : StreamingInput), ∀ plan ∈ (buildStreamingPlan input).days,
      plan.activeSlots = getActiveSlotCount input.rosterPositions
      ∧ plan.playersAvailable = ((rosterPlayersOf input).filter fun player =>
          decide (player.team ≠ "" ∧ player.team ∈ plan.teamsPlaying)).length
      ∧ plan.holes = max 0 ((plan.activeSlots : ℤ) - plan.playersAvailable)
      ∧ (plan.holes = 0 → plan.recommendations = [])
      ∧ (plan.recommendations.length : ℤ) ≤ min (plan.holes * 2) 5
      ∧ plan.recommendations.Pairwise (fun a b => b.zScore ≤ a.zScore)
      ∧ ∀ c ∈ plan.recommendations,
          (c.team ≠ "" ∧ c.team ∈ plan.teamsPlaying)
          ∧ ∃ fa ∈ collectFreeAgents input.playerZScores input.playersMap
              (buildRosteredSet input.allRosters),
              fa.playerId = c.playerId ∧ fa.zScore = c.zScore ∧ fa.team = c.team)
    ∧ (∀ (playerZScores : ZScoreMap) (playersMap : List (String × PlayerMeta))
        (rosteredSet : List String),
        (collectFreeAgents playerZScores playersMap rosteredSet).length ≤ 200
        ∧ (collectFreeAgents playerZScores playersMap rosteredSet).Pairwise
            (fun a b => b.zScore ≤ a.zScore)
        ∧ ∀ fa ∈ collectFreeAgents playerZScores playersMap rosteredSet,
            (List.lookup fa.playerId playerZScores).isSome
            ∧ fa.playerId ∉ rosteredSet ∧ fa.team ≠ "") := by
  constructor
  · intro input plan hplan
    rw [buildStreamingPlan_days] at hplan
    rcases List.mem_map.mp hplan with ⟨day, hday, heq⟩
    subst heq
    have hspec := streamingDayPlan_spec (getActiveSlotCount input.rosterPositions)
      (rosterPlayersOf input)
      (collectFreeAgents input.playerZScores input.playersMap
        (buildRosteredSet input.allRosters)) input.teamGameMap day
      (collectFreeAgents_sorted _ _ _)
    exact hspec
  · intro playerZScores playersMap rosteredSet
    exact ⟨collectFreeAgents_length playerZScores playersMap rosteredSet,
      collectFreeAgents_sorted playerZScores playersMap rosteredSet,
      fun fa hfa => collectFreeAgents_mem playerZScores playersMap rosteredSet fa hfa⟩

/-- Witness for C7: the one-day streaming witness input. -/
theorem streaming_holes_and_recommendations_witness :
    streamingDayPlan (getActiveSlotCount streamInput.rosterPositions)
        (rosterPlayersOf streamInput)
        (collectFreeAgents streamInput.playerZScores streamInput.playersMap
          (buildRosteredSet streamInput.allRosters)) streamInput.teamGameMap streamDay
      ∈ (buildStreamingPlan streamInput).days
    ∧ ((streamingDayPlan (getActiveSlotCount streamInput.rosterPositions)
        (rosterPlayersOf streamInput)
        (collectFreeAgents streamInput.playerZScores streamInput.playersMap
          (buildRosteredSet streamInput.allRosters)) streamInput.teamGameMap
        streamDay).activeSlots = getActiveSlotCount streamInput.rosterPositions
      ∧ (streamingDayPlan (getActiveSlotCount streamInput.rosterPositions)
          (rosterPlayersOf streamInput)
          (collectFreeAgents streamInput.playerZScores streamInput.playersMap
            (buildRosteredSet streamInput.allRosters)) streamInput.teamGameMap
          streamDay).playersAvailable
        = ((rosterPlayersOf streamInput).filter fun player =>
            decide (player.team ≠ "" ∧ player.team ∈ (streamingDayPlan
              (getActiveSlotCount streamInput.rosterPositions) (rosterPlayersOf streamInput)
              (collectFreeAgents streamInput.playerZScores streamInput.playersMap
                (buildRosteredSet streamInput.allRosters)) streamInput.teamGameMap
              streamDay).teamsPlaying)).length
      ∧ (streamingDayPlan (getActiveSlotCount streamInput.rosterPositions)
          (rosterPlayersOf streamInput)
          (collectFreeAgents streamInput.playerZScores streamInput.playersMap
            (buildRosteredSet streamInput.allRosters)) streamInput.teamGameMap
          streamDay).holes
        = max 0 (((streamingDayPlan (getActiveSlotCount streamInput.rosterPositions)
            (rosterPlayersOf streamInput)
            (collectFreeAgents streamInput.playerZScores streamInput.playersMap
              (buildRosteredSet streamInput.allRosters)) streamInput.teamGameMap
            streamDay).activeSlots : ℤ)
          - (streamingDayPlan (getActiveSlotCount streamInput.rosterPositions)
            (rosterPlayersOf streamInput)
            (collectFreeAgents streamInput.playerZScores streamInput.playersMap
              (buildRosteredSet streamInput.allRosters)) streamInput.teamGameMap
            streamDay).playersAvailable)
      ∧ ((streamingDayPlan (getActiveSlotCount streamInput.rosterPositions)
          (rosterPlayersOf streamInput)
          (collectFreeAgents streamInput.playerZScores streamInput.playersMap
            (buildRosteredSet streamInput.allRosters)) streamInput.teamGameMap
          streamDay).holes = 0 →
        (streamingDayPlan (getActiveSlotCount streamInput.rosterPositions)
          (rosterPlayersOf streamInput)
          (collectFreeAgents streamInput.playerZScores streamInput.playersMap
            (buildRosteredSet streamInput.allRosters)) streamInput.teamGameMap
          streamDay).recommendations = [])
      ∧ ((streamingDayPlan (getActiveSlotCount streamInput.rosterPositions)
          (rosterPlayersOf streamInput)
          (collectFreeAgents streamInput.playerZScores streamInput.playersMap
            (buildRosteredSet streamInput.allRosters)) streamInput.teamGameMap
          streamDay).recommendations.length : ℤ)
        ≤ min ((streamingDayPlan (getActiveSlotCount streamInput.rosterPositions)
            (rosterPlayersOf streamInput)
            (collectFreeAgents streamInput.playerZScores streamInput.playersMap
              (buildRosteredSet streamInput.allRosters)) streamInput.teamGameMap
            streamDay).holes * 2) 5
      ∧ (streamingDayPlan (getActiveSlotCount streamInput.rosterPositions)
          (rosterPlayersOf streamInput)
          (collectFreeAgents streamInput.playerZScores streamInput.playersMap
            (buildRosteredSet streamInput.allRosters)) streamInput.teamGameMap
          streamDay).recommendations.Pairwise (fun a b => b.zScore ≤ a.zScore)
      ∧ ∀ c ∈ (streamingDayPlan (getActiveSlotCount streamInput.rosterPositions)
          (rosterPlayersOf streamInput)
          (collectFreeAgents streamInput.playerZScores streamInput.playersMap
            (buildRosteredSet streamInput.allRosters)) streamInput.teamGameMap
          streamDay).recommendations,
          (c.team ≠ "" ∧ c.team ∈ (streamingDayPlan
            (getActiveSlotCount streamInput.rosterPositions) (rosterPlayersOf streamInput)
            (collectFreeAgents streamInput.playerZScores streamInput.playersMap
              (buildRosteredSet streamInput.allRosters)) streamInput.teamGameMap
            streamDay).teamsPlaying)
          ∧ ∃ fa ∈ collectFreeAgents streamInput.playerZScores streamInput.playersMap
              (buildRosteredSet streamInput.allRosters),
              fa.playerId = c.playerId ∧ fa.zScore = c.zScore ∧ fa.team = c.team) := by
  have hmem : streamingDayPlan (getActiveSlotCount streamInput.rosterPositions)
      (rosterPlayersOf streamInput)
      (collectFreeAgents streamInput.playerZScores streamInput.playersMap
        (buildRosteredSet streamInput.allRosters)) streamInput.teamGameMap streamDay
      ∈ (buildStreamingPlan streamInput).days := by
    rw [buildStreamingPlan_days]
    exact List.mem_map.mpr ⟨streamDay, List.mem_singleton.mpr rfl, rfl⟩
  exact ⟨hmem, streaming_holes_and_recommendations.1 streamInput _ hmem⟩
